import Mathlib

/-!
Verification development for the Movement Analysis Engine of the
sportmovementapp repository.

The engine is shallowly embedded: every TypeScript function of the analysis
core is translated to a Lean definition over exact rationals (`ℚ` stands for
the JavaScript `number` type; float rounding is out of scope, but the one
place where IEEE NaN is semantically relevant, `calculateAngle`, is modelled
precisely with an explicit `JsNum` value domain).  Frame numbers are `ℤ`.
`null`/`undefined` values are modelled with `Option`.  The transcendental
library primitives `Math.sqrt`, `Math.acos` and `Math.atan2` are passed to the
geometry helpers as an explicit bundle of function parameters (`MathPrims`);
all theorems about the pipeline either quantify over the bundle or are
insensitive to it.  Free-text fields built by string interpolation
(`description`, per-phase `insights`, `overallInsights`) are not modelled; no
claim refers to them.
-/

namespace SportMove

/-- One pose landmark, from `src/types/analysis.ts` (`Keypoint`). -/
structure Keypoint where
  id : ℤ
  name : String
  x : ℚ
  y : ℚ
  z : ℚ
  visibility : ℚ
deriving DecidableEq, Inhabited, Repr

/-- One analysed video frame, from `src/types/analysis.ts` (`FrameData`). -/
structure FrameData where
  frame_number : ℤ
  timestamp : ℚ
  keypoints : List Keypoint
deriving DecidableEq, Inhabited, Repr

/-- Video metadata, from `src/types/analysis.ts` (`VideoInfo`). -/
structure VideoInfo where
  fps : ℚ
  total_frames : ℤ
  width : ℚ
  height : ℚ
  duration_seconds : ℚ
deriving DecidableEq, Inhabited, Repr

/-- The upstream pose-extraction result, from `src/types/analysis.ts`
(`AnalysisResult`); the optional `frameNotes` UI field is not modelled. -/
structure AnalysisResult where
  video_filename : String
  processed_at : String
  video_info : VideoInfo
  keypoints_per_frame : ℤ
  frames : List FrameData
deriving DecidableEq, Inhabited, Repr

/-- A point of the velocity timeline, from `src/types/report.ts`. -/
structure VelocityDataPoint where
  frame : ℤ
  timestamp : ℚ
  velocity : ℚ
  bodyPart : String
deriving DecidableEq, Inhabited, Repr

/-- A point of the angle timeline, from `src/types/report.ts`. -/
structure AngleDataPoint where
  frame : ℤ
  timestamp : ℚ
  angle : Option ℚ
  joint : String
deriving DecidableEq, Inhabited, Repr

/-- The partial bag of measurements attached to a key moment, from
`src/types/report.ts` (`KeyMoment.metrics`).  Absent (`undefined`) and `null`
entries are both modelled as `none`; the weakness rules treat them alike. -/
structure MomentMetrics where
  velocity : Option ℚ := none
  elbowAngle : Option ℚ := none
  shoulderAngle : Option ℚ := none
  armExtension : Option ℚ := none
  bodyHeight : Option ℚ := none
deriving DecidableEq, Inhabited, Repr

/-- A detected key moment, from `src/types/report.ts`; the interpolated
free-text `description` is not modelled. -/
structure KeyMoment where
  frame : ℤ
  timestamp : ℚ
  label : String
  metrics : MomentMetrics
deriving DecidableEq, Inhabited, Repr

/-- The `armExtensionRange` sub-record of `KeyMetrics`. -/
structure ExtensionRange where
  min : ℚ
  max : ℚ
  range : ℚ
deriving DecidableEq, Inhabited, Repr

/-- The metric summary record, from `src/types/report.ts` (`KeyMetrics`). -/
structure KeyMetrics where
  peakVelocity : ℚ
  peakVelocityFrame : ℤ
  averageVelocity : ℚ
  maxElbowAngle : Option ℚ
  minElbowAngle : Option ℚ
  maxShoulderAngle : Option ℚ
  armExtensionRange : ExtensionRange
  jumpHeight : Option ℚ
  highestBodyPositionFrame : Option ℤ
  lowestBodyPositionFrame : Option ℤ
  averageTorsoAngle : Option ℚ
  shoulderWidth : Option ℚ
deriving DecidableEq, Inhabited, Repr

/-- A segmented movement phase, from `src/types/report.ts`; the constant
`description` and interpolated `insights` strings are not modelled. -/
structure MovementPhase where
  name : String
  startFrame : ℤ
  endFrame : ℤ
  duration : ℚ
  avgVelocity : ℚ
  maxVelocity : ℚ
deriving DecidableEq, Inhabited, Repr

/-- Weakness severity, from `src/types/report.ts`. -/
inductive Severity where
  | low
  | medium
  | high
deriving DecidableEq, Inhabited, Repr

/-- The optimal range attached to a weakness. -/
structure OptimalRange where
  min : ℚ
  max : ℚ
deriving DecidableEq, Inhabited, Repr

/-- A detected biomechanical weakness, from `src/types/report.ts`. -/
structure Weakness where
  category : String
  issue : String
  severity : Severity
  detectedValue : ℚ
  optimalRange : OptimalRange
  explanation : String
deriving DecidableEq, Inhabited, Repr

/-- A training-drill catalog entry, from `src/types/report.ts` (`Drill`). -/
structure Drill where
  id : String
  name : String
  description : String
  category : String
  difficulty : String
  equipment : List String
  focusAreas : List String
  instructions : List String
  sets : String
deriving DecidableEq, Inhabited, Repr

/-- A drill recommendation, from `src/types/report.ts`. -/
structure DrillRecommendation where
  weakness : Weakness
  recommendedDrills : List Drill
  priority : ℤ
deriving DecidableEq, Inhabited, Repr

/-- Report-generation options, from `src/types/report.ts`
(`AnalysisOptions`); all three fields are optional. -/
structure AnalysisOptions where
  minVisibility : Option ℚ := none
  smoothingWindow : Option ℚ := none
  velocityThreshold : Option ℚ := none
deriving DecidableEq, Inhabited, Repr

/-- A 3D vector, from `src/utils/biomechanics.ts` (`Vector3D`). -/
structure Vector3D where
  x : ℚ
  y : ℚ
  z : ℚ
deriving DecidableEq, Inhabited, Repr

/-! ### The JavaScript number domain for `calculateAngle`

`calculateAngle` is the one engine function whose IEEE semantics (a `0/0`
producing `NaN`) is the subject of a claim, so its result is modelled in a
value domain with explicit `NaN` and signed infinities, with the JS behaviour
of `/`, `Math.min`, `Math.max` and `Math.acos` on those values. -/

/-- A JavaScript number: `NaN`, a signed infinity, or a finite value. -/
inductive JsNum where
  | nan
  | posInf
  | negInf
  | num (x : ℚ)
deriving DecidableEq, Inhabited, Repr

/-- JS division of finite values: `0/0` is `NaN`, `x/0` for `x ≠ 0` is a
signed infinity, otherwise exact division. -/
def jsDiv (a b : ℚ) : JsNum :=
  if b = 0 then
    if a = 0 then JsNum.nan else if 0 < a then JsNum.posInf else JsNum.negInf
  else JsNum.num (a / b)

/-- JS `Math.min(1, v)`: `NaN` propagates. -/
def jsMinOne : JsNum → JsNum
  | JsNum.nan => JsNum.nan
  | JsNum.posInf => JsNum.num 1
  | JsNum.negInf => JsNum.negInf
  | JsNum.num x => JsNum.num (min 1 x)

/-- JS `Math.max(-1, v)`: `NaN` propagates. -/
def jsMaxNegOne : JsNum → JsNum
  | JsNum.nan => JsNum.nan
  | JsNum.posInf => JsNum.posInf
  | JsNum.negInf => JsNum.num (-1)
  | JsNum.num x => JsNum.num (max (-1) x)

/-- The numeric value of `Math.PI` (the float prints as
(3141592653589793 / 1000000000000000 : ℚ); the difference between this decimal and the exact double
is below the float-rounding granularity that this embedding abstracts from). -/
def jsPI : ℚ := 3141592653589793 / 1000000000000000

/-- The transcendental primitives `Math.sqrt`, `Math.acos`, `Math.atan2`
consumed by the geometry helpers.  They are supplied as parameters; each
theorem below either holds for every bundle or states the properties of the
bundle it needs. -/
structure MathPrims where
  sqrt : ℚ → ℚ
  acos : ℚ → ℚ
  atan2 : ℚ → ℚ → ℚ

/-- JS `Math.acos`: `NaN` outside `[-1, 1]` and on non-finite input. -/
def jsAcos (acos : ℚ → ℚ) : JsNum → JsNum
  | JsNum.num x => if x < -1 ∨ 1 < x then JsNum.nan else JsNum.num (acos x)
  | _ => JsNum.nan

/-- Multiplication by the positive constant `180 / Math.PI`, lifted to
`JsNum` (radians-to-degrees step of `calculateAngle`). -/
def jsToDegrees : JsNum → JsNum
  | JsNum.num x => JsNum.num (x * 180 / jsPI)
  | n => n

/-- A primitive bundle used to instantiate closed statements.  Every closed
statement proved with it below is insensitive to the bundle (the statement
either never reaches a primitive call, only inspects `Option` structure
around primitive values, or — for `calculateAngle` — only needs
`sqrt 0 = 0` and positivity on positives, which `id` satisfies). -/
def trivPrims : MathPrims where
  sqrt := id
  acos := id
  atan2 := fun _ _ => 0

/-! ### Geometry primitives, from `src/utils/biomechanics.ts` -/

/-- The vector from `vertex` to `point` built at the top of
`calculateAngle`. -/
def vSub (point vertex : Keypoint) : Vector3D :=
  ⟨point.x - vertex.x, point.y - vertex.y, point.z - vertex.z⟩

/-- The component-product sum `a.x * b.x + a.y * b.y + a.z * b.z`, used by
`calculateAngle` both as the dot product and (with `a = b`) as the squared
magnitude under the square root. -/
def vDot (a b : Vector3D) : ℚ :=
  a.x * b.x + a.y * b.y + a.z * b.z

/-- `calculateAngle` from `src/utils/biomechanics.ts`: the angle at `vertex`
between `vertex→point1` and `vertex→point2`, as the JS expression
`acos(max(-1, min(1, dot / (|v1| |v2|)))) * 180 / π` evaluates, including the
`NaN` produced by `0/0` when a vector has zero magnitude. -/
def calculateAngle (P : MathPrims) (point1 vertex point2 : Keypoint) : JsNum :=
  let vector1 := vSub point1 vertex
  let vector2 := vSub point2 vertex
  let dotProduct := vDot vector1 vector2
  let magnitude1 := P.sqrt (vDot vector1 vector1)
  let magnitude2 := P.sqrt (vDot vector2 vector2)
  jsToDegrees (jsAcos P.acos (jsMaxNegOne (jsMinOne (jsDiv dotProduct (magnitude1 * magnitude2)))))

/-- The numeric value of `calculateAngle` as stored by the pipeline into
`number`-typed slots.  The `NaN` case (modelled exactly by `calculateAngle`)
is collapsed to `0` here; no claim settled in this file depends on the
numeric value of an angle. -/
def calculateAngleVal (P : MathPrims) (point1 vertex point2 : Keypoint) : ℚ :=
  match calculateAngle P point1 vertex point2 with
  | JsNum.num x => x
  | _ => 0

/-- `calculateDistance` from `src/utils/biomechanics.ts` (3D Euclidean). -/
def calculateDistance (P : MathPrims) (point1 point2 : Keypoint) : ℚ :=
  let dx := point2.x - point1.x
  let dy := point2.y - point1.y
  let dz := point2.z - point1.z
  P.sqrt (dx * dx + dy * dy + dz * dz)

/-- `calculate2DDistance` from `src/utils/biomechanics.ts`. -/
def calculate2DDistance (P : MathPrims) (point1 point2 : Keypoint) : ℚ :=
  let dx := point2.x - point1.x
  let dy := point2.y - point1.y
  P.sqrt (dx * dx + dy * dy)

/-- `calculateVelocity` from `src/utils/biomechanics.ts`: distance over time,
`0` when `deltaTime` is `0`. -/
def calculateVelocity (P : MathPrims) (point1 point2 : Keypoint) (deltaTime : ℚ) : ℚ :=
  if deltaTime = 0 then 0 else calculateDistance P point1 point2 / deltaTime

/-- `keypoints.find(kp => kp.id === i)`, the landmark lookup used by every
biomechanical helper. -/
def findKp (keypoints : List Keypoint) (i : ℤ) : Option Keypoint :=
  keypoints.find? (fun kp => kp.id == i)

/-- `calculateCenterOfMass` from `src/utils/biomechanics.ts`: arithmetic mean
of the given keypoints, `(0,0,0)` for an empty list. -/
def calculateCenterOfMass (keypoints : List Keypoint) : Vector3D :=
  match keypoints with
  | [] => ⟨0, 0, 0⟩
  | _ =>
    ⟨(keypoints.map Keypoint.x).sum / (keypoints.length : ℚ),
     (keypoints.map Keypoint.y).sum / (keypoints.length : ℚ),
     (keypoints.map Keypoint.z).sum / (keypoints.length : ℚ)⟩

/-- `calculateRightElbowAngle` from `src/utils/biomechanics.ts`: angle at the
right elbow (ids 12, 14, 16), `null` unless all three landmarks are present
with visibility at least 0.5. -/
def calculateRightElbowAngle (P : MathPrims) (keypoints : List Keypoint) : Option ℚ :=
  match findKp keypoints 12, findKp keypoints 14, findKp keypoints 16 with
  | some shoulder, some elbow, some wrist =>
    if shoulder.visibility < (5 / 10 : ℚ) ∨ elbow.visibility < (5 / 10 : ℚ) ∨ wrist.visibility < (5 / 10 : ℚ) then none
    else some (calculateAngleVal P shoulder elbow wrist)
  | _, _, _ => none

/-- `calculateRightShoulderAngle` from `src/utils/biomechanics.ts`: angle at
the right shoulder (ids 14, 12, 24), gated like the elbow helper. -/
def calculateRightShoulderAngle (P : MathPrims) (keypoints : List Keypoint) : Option ℚ :=
  match findKp keypoints 14, findKp keypoints 12, findKp keypoints 24 with
  | some elbow, some shoulder, some hip =>
    if elbow.visibility < (5 / 10 : ℚ) ∨ shoulder.visibility < (5 / 10 : ℚ) ∨ hip.visibility < (5 / 10 : ℚ) then none
    else some (calculateAngleVal P elbow shoulder hip)
  | _, _, _ => none

/-- `calculateTorsoAngle` from `src/utils/biomechanics.ts`: angle of the
hip-midpoint to shoulder-midpoint vector from vertical, via
`atan2(|dx|, |dy|)`, gated on the four torso landmarks. -/
def calculateTorsoAngle (P : MathPrims) (keypoints : List Keypoint) : Option ℚ :=
  match findKp keypoints 11, findKp keypoints 12, findKp keypoints 23, findKp keypoints 24 with
  | some leftShoulder, some rightShoulder, some leftHip, some rightHip =>
    if leftShoulder.visibility < (5 / 10 : ℚ) ∨ rightShoulder.visibility < (5 / 10 : ℚ) ∨
        leftHip.visibility < (5 / 10 : ℚ) ∨ rightHip.visibility < (5 / 10 : ℚ) then none
    else
      let dy := (leftShoulder.y + rightShoulder.y) / 2 - (leftHip.y + rightHip.y) / 2
      let dx := (leftShoulder.x + rightShoulder.x) / 2 - (leftHip.x + rightHip.x) / 2
      some (P.atan2 |dx| |dy| * 180 / jsPI)
  | _, _, _, _ => none

/-- `calculateBodyCenterOfMass` from `src/utils/biomechanics.ts`: mean of the
confident landmarks among both shoulders and hips (ids 11, 12, 23, 24);
`null` when fewer than two qualify. -/
def calculateBodyCenterOfMass (keypoints : List Keypoint) : Option Vector3D :=
  let validPoints :=
    ([findKp keypoints 11, findKp keypoints 12,
      findKp keypoints 23, findKp keypoints 24].filterMap id).filter
      (fun kp => (5 / 10 : ℚ) ≤ kp.visibility)
  if validPoints.length < 2 then none else some (calculateCenterOfMass validPoints)

/-- `calculateShoulderWidth` from `src/utils/biomechanics.ts`: 2D distance
between the shoulders (ids 11, 12), gated at visibility 0.5. -/
def calculateShoulderWidth (P : MathPrims) (keypoints : List Keypoint) : Option ℚ :=
  match findKp keypoints 11, findKp keypoints 12 with
  | some leftShoulder, some rightShoulder =>
    if leftShoulder.visibility < (5 / 10 : ℚ) ∨ rightShoulder.visibility < (5 / 10 : ℚ) then none
    else some (calculate2DDistance P leftShoulder rightShoulder)
  | _, _ => none

/-- `calculateRightArmExtension` from `src/utils/biomechanics.ts`: 3D
distance from right shoulder (id 12) to right wrist (id 16), gated at
visibility 0.5. -/
def calculateRightArmExtension (P : MathPrims) (keypoints : List Keypoint) : Option ℚ :=
  match findKp keypoints 12, findKp keypoints 16 with
  | some shoulder, some wrist =>
    if shoulder.visibility < (5 / 10 : ℚ) ∨ wrist.visibility < (5 / 10 : ℚ) then none
    else some (calculateDistance P shoulder wrist)
  | _, _ => none

/-! ### Timeline builders, from `src/services/movementAnalyzer.ts` -/

/-- The value `opts.minVisibility || (5 / 10 : ℚ)`: the JS `||` replaces an absent or
zero (falsy) setting with the default 0.5. -/
def minVisOr (o : Option ℚ) : ℚ :=
  match o with
  | some v => if v = 0 then (5 / 10 : ℚ) else v
  | none => (5 / 10 : ℚ)

/-- One step of the `calculateVelocityTimeline` loop: the optional velocity
point for a consecutive frame pair, present when the right wrist (id 16) is
found with sufficient visibility in both frames. -/
def velocityPair (P : MathPrims) (minVisibility : ℚ)
    (previousFrame currentFrame : FrameData) : Option VelocityDataPoint :=
  match findKp currentFrame.keypoints 16, findKp previousFrame.keypoints 16 with
  | some currentWrist, some previousWrist =>
    if minVisibility ≤ currentWrist.visibility ∧ minVisibility ≤ previousWrist.visibility then
      some ⟨currentFrame.frame_number, currentFrame.timestamp,
        calculateVelocity P previousWrist currentWrist
          (currentFrame.timestamp - previousFrame.timestamp),
        "Right Wrist"⟩
    else none
  | _, _ => none

/-- `calculateVelocityTimeline` from `src/services/movementAnalyzer.ts`:
one gap-tolerant entry per consecutive frame pair whose tracked wrist is
sufficiently visible in both frames. -/
def calculateVelocityTimeline (P : MathPrims) (frames : List FrameData)
    (opts : AnalysisOptions) : List VelocityDataPoint :=
  (frames.zip frames.tail).filterMap
    (fun pr => velocityPair P (minVisOr opts.minVisibility) pr.1 pr.2)

/-- `calculateAngleTimeline` from `src/services/movementAnalyzer.ts`: per
frame, a right-elbow entry followed by a right-shoulder entry; insufficient
confidence is carried as a `null` angle, the entry is not omitted.  (The
`opts` parameter is taken but unused, as in the source.) -/
def calculateAngleTimeline (P : MathPrims) (frames : List FrameData)
    (_opts : AnalysisOptions) : List AngleDataPoint :=
  frames.flatMap (fun frame =>
    [⟨frame.frame_number, frame.timestamp,
      calculateRightElbowAngle P frame.keypoints, "Right Elbow"⟩,
     ⟨frame.frame_number, frame.timestamp,
      calculateRightShoulderAngle P frame.keypoints, "Right Shoulder"⟩])

/-! ### Key-moment detection, from `src/services/movementAnalyzer.ts` -/

/-- The body of the `reduce` finding the peak-velocity point: keep the
earlier point on ties (`current.velocity > max.velocity ? current : max`). -/
def peakVelocityStep (mx current : VelocityDataPoint) : VelocityDataPoint :=
  if mx.velocity < current.velocity then current else mx

/-- The body of the maximum-arm-extension loop: the running maximum starts at
`0` with no frame; a frame is taken only when its (non-`null`) extension
strictly exceeds the running maximum. -/
def maxExtensionStep (P : MathPrims) (acc : ℚ × Option FrameData)
    (frame : FrameData) : ℚ × Option FrameData :=
  match calculateRightArmExtension P frame.keypoints with
  | some extension => if acc.1 < extension then (extension, some frame) else acc
  | none => acc

/-- The body of the highest-body-position loop: running minimum of
center-of-mass `y` (lower `y` is higher in image coordinates), skipping
frames with no computable center of mass; started at `Infinity`, modelled as
the `none` accumulator every first computable `y` beats. -/
def highestPositionStep (acc : Option (ℚ × FrameData)) (frame : FrameData) :
    Option (ℚ × FrameData) :=
  match calculateBodyCenterOfMass frame.keypoints with
  | some com =>
    match acc with
    | none => some (com.y, frame)
    | some best => if com.y < best.1 then some (com.y, frame) else acc
  | none => acc

/-- `detectKeyMoments` from `src/services/movementAnalyzer.ts`.  Returns `[]`
outright when the velocity timeline or the frame list is empty; otherwise
scans for Peak Velocity (arg-max of the velocity timeline, earliest wins),
Maximum Extension (arg-max of per-frame arm extension over a running maximum
started at 0) and Peak Height (arg-min of center-of-mass `y`), then
stable-sorts the found moments by frame number. -/
def detectKeyMoments (P : MathPrims) (frames : List FrameData)
    (velocityData : List VelocityDataPoint) (angleData : List AngleDataPoint) :
    List KeyMoment :=
  match velocityData, frames with
  | [], _ => []
  | _, [] => []
  | v0 :: vrest, _ :: _ =>
    let _ := angleData
    let peakVelocityData := vrest.foldl peakVelocityStep v0
    let peakMoments :=
      match frames.find? (fun f => f.frame_number == peakVelocityData.frame) with
      | some peakVelocityFrame =>
        [⟨peakVelocityData.frame, peakVelocityData.timestamp, "Peak Velocity",
          { velocity := some peakVelocityData.velocity,
            elbowAngle := calculateRightElbowAngle P peakVelocityFrame.keypoints,
            shoulderAngle := calculateRightShoulderAngle P peakVelocityFrame.keypoints,
            armExtension := calculateRightArmExtension P peakVelocityFrame.keypoints }⟩]
      | none => []
    let maxExt := frames.foldl (maxExtensionStep P) (0, none)
    let extensionMoments :=
      match maxExt.2 with
      | some maxExtensionFrame =>
        [⟨maxExtensionFrame.frame_number, maxExtensionFrame.timestamp, "Maximum Extension",
          { armExtension := some maxExt.1,
            velocity :=
              (velocityData.find? (fun v => v.frame == maxExtensionFrame.frame_number)).map
                VelocityDataPoint.velocity,
            elbowAngle := calculateRightElbowAngle P maxExtensionFrame.keypoints,
            shoulderAngle := calculateRightShoulderAngle P maxExtensionFrame.keypoints }⟩]
      | none => []
    let highest := frames.foldl highestPositionStep none
    let heightMoments :=
      match highest with
      | some best =>
        [⟨best.2.frame_number, best.2.timestamp, "Peak Height",
          { bodyHeight := some best.1 }⟩]
      | none => []
    List.mergeSort (peakMoments ++ extensionMoments ++ heightMoments)
      (fun a b => a.frame ≤ b.frame)

/-! ### Phase segmentation, from `src/services/movementAnalyzer.ts` -/

/-- The frame at the median index of the velocity timeline,
`velocityData[Math.floor(velocityData.length / 2)].frame`.  Callers only
consult it with a non-empty timeline (the source would throw otherwise); the
`getD` default is never reached there. -/
def medianVelocityFrame (velocityData : List VelocityDataPoint) : ℤ :=
  (velocityData.getD (velocityData.length / 2) default).frame

/-- The phase anchor
`peakVelocityMoment?.frame || velocityData[...].frame`: the JS `||` falls
back to the median-index frame not only when no Peak Velocity moment exists
but also when the moment's frame number is `0` (falsy). -/
def phaseAnchor (velocityData : List VelocityDataPoint)
    (keyMoments : List KeyMoment) : ℤ :=
  match keyMoments.find? (fun m => m.label == "Peak Velocity") with
  | some m => if m.frame = 0 then medianVelocityFrame velocityData else m.frame
  | none => medianVelocityFrame velocityData

/-- The preparation-phase end boundary,
`Math.floor(peakVelocityFrame - (peakVelocityFrame - startFrame) * 0.3)`. -/
def prepEndFrameOf (startFrame peakVelocityFrame : ℤ) : ℤ :=
  Int.floor ((peakVelocityFrame : ℚ) -
    ((peakVelocityFrame : ℚ) - (startFrame : ℚ)) * (3 / 10 : ℚ))

/-- The contact-phase end boundary,
`Math.min(Math.floor(peakVelocityFrame + (endFrame - peakVelocityFrame) * 0.4), endFrame)`. -/
def contactEndFrameOf (peakVelocityFrame endFrame : ℤ) : ℤ :=
  min (Int.floor ((peakVelocityFrame : ℚ) +
    ((endFrame : ℚ) - (peakVelocityFrame : ℚ)) * (4 / 10 : ℚ))) endFrame

/-- The shared shape of the four phase blocks of `detectMovementPhases`:
filter the velocity timeline and the frame list to `[startFrame, endFrame]`,
and emit one phase exactly when the frame subset is non-empty, with duration
from the subset's first and last timestamps and average/maximum velocity from
the velocity subset (0 when that subset is empty). -/
def mkPhase (name : String) (startFrame endFrame : ℤ)
    (velocityData : List VelocityDataPoint) (frames : List FrameData) :
    List MovementPhase :=
  let vs := velocityData.filter (fun v => startFrame ≤ v.frame ∧ v.frame ≤ endFrame)
  let fs := frames.filter (fun f => startFrame ≤ f.frame_number ∧ f.frame_number ≤ endFrame)
  match fs.head?, fs.getLast? with
  | some f0, some fl =>
    [⟨name, startFrame, endFrame, fl.timestamp - f0.timestamp,
      (match vs with
       | [] => 0
       | _ => (vs.map VelocityDataPoint.velocity).sum / (vs.length : ℚ)),
      (match vs.map VelocityDataPoint.velocity with
       | [] => 0
       | x :: xs => xs.foldl max x)⟩]
  | _, _ => []

/-- `detectMovementPhases` from `src/services/movementAnalyzer.ts`: `[]` when
the frame list or the velocity timeline is empty; otherwise four candidate
phases around the anchor, each emitted only when its frame subset is
non-empty, with boundaries
`prepEnd = floor(peak - (peak - start) * (3 / 10 : ℚ))`,
`accelEnd = peak`,
`contactEnd = min(floor(peak + (end - peak) * (4 / 10 : ℚ)), end)`,
`followEnd = end`. -/
def detectMovementPhases (frames : List FrameData)
    (velocityData : List VelocityDataPoint) (keyMoments : List KeyMoment) :
    List MovementPhase :=
  match frames.head?, frames.getLast? with
  | some firstFrame, some lastFrame =>
    match velocityData with
    | [] => []
    | _ =>
      let peakVelocityFrame := phaseAnchor velocityData keyMoments
      let startFrame := firstFrame.frame_number
      let endFrame := lastFrame.frame_number
      let prepEndFrame := prepEndFrameOf startFrame peakVelocityFrame
      let accelStartFrame := prepEndFrame + 1
      let accelEndFrame := peakVelocityFrame
      let contactStartFrame := peakVelocityFrame + 1
      let contactEndFrame := contactEndFrameOf peakVelocityFrame endFrame
      let followStartFrame := contactEndFrame + 1
      let followEndFrame := endFrame
      mkPhase "Preparation" startFrame prepEndFrame velocityData frames
        ++ mkPhase "Acceleration" accelStartFrame accelEndFrame velocityData frames
        ++ mkPhase "Contact" contactStartFrame contactEndFrame velocityData frames
        ++ mkPhase "Follow-through" followStartFrame followEndFrame velocityData frames
  | _, _ => []

/-! ### Metrics aggregation, from `src/services/movementAnalyzer.ts` -/

/-- `calculateKeyMetrics` from `src/services/movementAnalyzer.ts`: linear
reductions of the timelines and frames into the `KeyMetrics` record, with
the source's empty-population defaults (`0` for velocity fields and the
extension range, `null` for the other fields). -/
def calculateKeyMetrics (P : MathPrims) (frames : List FrameData)
    (velocityData : List VelocityDataPoint) (angleData : List AngleDataPoint) :
    KeyMetrics :=
  let peakVelocity :=
    match velocityData.map VelocityDataPoint.velocity with
    | [] => 0
    | x :: xs => xs.foldl max x
  let peakVelocityFrame :=
    match velocityData.find? (fun v => v.velocity == peakVelocity) with
    | some v => v.frame
    | none => 0
  let averageVelocity :=
    match velocityData with
    | [] => 0
    | _ => (velocityData.map VelocityDataPoint.velocity).sum / (velocityData.length : ℚ)
  let elbowAngles :=
    (angleData.filter (fun a => a.joint == "Right Elbow" && a.angle.isSome)).filterMap
      AngleDataPoint.angle
  let maxElbowAngle :=
    match elbowAngles with
    | [] => none
    | x :: xs => some (xs.foldl max x)
  let minElbowAngle :=
    match elbowAngles with
    | [] => none
    | x :: xs => some (xs.foldl min x)
  let shoulderAngles :=
    (angleData.filter (fun a => a.joint == "Right Shoulder" && a.angle.isSome)).filterMap
      AngleDataPoint.angle
  let maxShoulderAngle :=
    match shoulderAngles with
    | [] => none
    | x :: xs => some (xs.foldl max x)
  let extensions := frames.filterMap (fun f => calculateRightArmExtension P f.keypoints)
  let armExtensionRange :=
    match extensions with
    | [] => (⟨0, 0, 0⟩ : ExtensionRange)
    | x :: xs => ⟨xs.foldl min x, xs.foldl max x, xs.foldl max x - xs.foldl min x⟩
  let comYPositions :=
    frames.filterMap (fun f => (calculateBodyCenterOfMass f.keypoints).map Vector3D.y)
  let jumpHeight :=
    match comYPositions with
    | [] => none
    | y :: ys => some (ys.foldl max y - ys.foldl min y)
  let highestBodyPositionFrame :=
    match comYPositions with
    | [] => none
    | y :: ys =>
      some (frames.getD (comYPositions.indexOf (ys.foldl min y)) default).frame_number
  let lowestBodyPositionFrame :=
    match comYPositions with
    | [] => none
    | y :: ys =>
      some (frames.getD (comYPositions.indexOf (ys.foldl max y)) default).frame_number
  let torsoAngles := frames.filterMap (fun f => calculateTorsoAngle P f.keypoints)
  let averageTorsoAngle :=
    match torsoAngles with
    | [] => none
    | _ => some (torsoAngles.sum / (torsoAngles.length : ℚ))
  let shoulderWidths := frames.filterMap (fun f => calculateShoulderWidth P f.keypoints)
  let shoulderWidth :=
    match shoulderWidths with
    | [] => none
    | _ => some (shoulderWidths.sum / (shoulderWidths.length : ℚ))
  ⟨peakVelocity, peakVelocityFrame, averageVelocity, maxElbowAngle, minElbowAngle,
   maxShoulderAngle, armExtensionRange, jumpHeight, highestBodyPositionFrame,
   lowestBodyPositionFrame, averageTorsoAngle, shoulderWidth⟩

/-! ### Weakness detection, from `src/services/weaknessDetector.ts` -/

/-- `SEVERITY_PRIORITY` from `src/services/weaknessDetector.ts`. -/
def SEVERITY_PRIORITY : Severity → ℕ
  | Severity.high => 3
  | Severity.medium => 2
  | Severity.low => 1

/-- The sort order used on weaknesses: the JS comparator
`(a, b) => SEVERITY_PRIORITY[b.severity] - SEVERITY_PRIORITY[a.severity]`
(severity descending), as the Boolean relation fed to a stable sort
(`Array.prototype.sort` is stable per ES2019). -/
def severityDescLe (a b : Weakness) : Bool :=
  SEVERITY_PRIORITY b.severity ≤ SEVERITY_PRIORITY a.severity

/-- Rule 1, Low Contact Point.  The JS condition
`contactMoment?.metrics.bodyHeight && bodyHeight > (45 / 100 : ℚ)` tests truthiness,
so a present value of exactly `0` does not fire (the conjunct `bh ≠ 0`). -/
def rule1 (contactMoment : Option KeyMoment) : List Weakness :=
  match contactMoment with
  | some cm =>
    match cm.metrics.bodyHeight with
    | some bh =>
      if bh ≠ 0 ∧ (45 / 100 : ℚ) < bh then
        [⟨"Arm Mechanics", "Low Contact Point",
          (if (55 / 100 : ℚ) < bh then Severity.high else Severity.medium), bh, ⟨(25 / 100 : ℚ), (45 / 100 : ℚ)⟩,
          "Contact point is below optimal height. Higher contact creates better attack angles and increases power. This limits your ability to hit downward and makes it easier for blockers."⟩]
      else []
    | none => []
  | none => []

/-- Rule 2, Incomplete Arm Extension at contact. -/
def rule2 (contactMoment : Option KeyMoment) : List Weakness :=
  match contactMoment with
  | some cm =>
    match cm.metrics.elbowAngle with
    | some ea =>
      if ea < 160 then
        [⟨"Arm Mechanics", "Incomplete Arm Extension",
          (if ea < 150 then Severity.high else if ea < 155 then Severity.medium else Severity.low),
          ea, ⟨160, 175⟩,
          "Arm is not fully extended at contact. Full extension maximizes reach and power transfer. A bent elbow reduces contact height and hitting power."⟩]
      else []
    | none => []
  | none => []

/-- Rule 3, Insufficient Arm Cocking. -/
def rule3 (metrics : KeyMetrics) : List Weakness :=
  match metrics.minElbowAngle with
  | some mea =>
    if 100 < mea then
      [⟨"Arm Mechanics", "Insufficient Arm Cocking",
        (if 120 < mea then Severity.high else Severity.medium), mea, ⟨60, 100⟩,
        "Elbow not bending enough during preparation phase. Proper arm cocking (drawing elbow back) is essential for generating power and achieving full range of motion."⟩]
    else []
  | none => []

/-- Rule 4, Limited Arm Extension Range. -/
def rule4 (metrics : KeyMetrics) : List Weakness :=
  if metrics.armExtensionRange.range < (25 / 100 : ℚ) then
    [⟨"Arm Mechanics", "Limited Arm Extension Range",
      (if metrics.armExtensionRange.range < (2 / 10 : ℚ) then Severity.high else Severity.medium),
      metrics.armExtensionRange.range, ⟨(25 / 100 : ℚ), (5 / 10 : ℚ)⟩,
      "Limited range of arm movement from preparation to contact. Greater extension range indicates better preparation and more powerful swing mechanics."⟩]
  else []

/-- Rule 5, Low Hand Speed. -/
def rule5 (metrics : KeyMetrics) : List Weakness :=
  if metrics.peakVelocity < (8 / 10 : ℚ) then
    [⟨"Power Generation", "Low Hand Speed",
      (if metrics.peakVelocity < (5 / 10 : ℚ) then Severity.high else Severity.medium),
      metrics.peakVelocity, ⟨(8 / 10 : ℚ), 2⟩,
      "Hand speed at contact is below optimal. Higher hand velocity generates more ball speed and power. This suggests lack of explosive power or inefficient kinetic chain."⟩]
  else []

/-- Rule 6, Poor Velocity Timing. -/
def rule6 (peakVelocityMoment contactMoment : Option KeyMoment) : List Weakness :=
  match peakVelocityMoment, contactMoment with
  | some pv, some cm =>
    let timeDifference := |pv.timestamp - cm.timestamp|
    if (15 / 100 : ℚ) < timeDifference then
      [⟨"Timing", "Poor Velocity Timing",
        (if (25 / 100 : ℚ) < timeDifference then Severity.high else Severity.medium),
        timeDifference, ⟨0, (1 / 10 : ℚ)⟩,
        "Peak hand speed does not align with contact point. Maximum velocity should occur at or just before ball contact for optimal power transfer. This suggests timing issues or premature deceleration."⟩]
    else []
  | _, _ => []

/-- Rule 7, Limited Vertical Jump. -/
def rule7 (metrics : KeyMetrics) : List Weakness :=
  match metrics.jumpHeight with
  | some jh =>
    if jh < (8 / 100 : ℚ) then
      [⟨"Power Generation", "Limited Vertical Jump",
        (if jh < (5 / 100 : ℚ) then Severity.medium else Severity.low), jh, ⟨(8 / 100 : ℚ), (25 / 100 : ℚ)⟩,
        "Limited vertical jump height reduces contact point elevation. Higher jumps allow hitting from greater height, creating better angles and more power."⟩]
    else []
  | none => []

/-- Rule 8, Excessive Forward Lean. -/
def rule8 (metrics : KeyMetrics) : List Weakness :=
  match metrics.averageTorsoAngle with
  | some ta =>
    if 25 < ta then
      [⟨"Body Positioning", "Excessive Forward Lean",
        (if 35 < ta then Severity.high else Severity.medium), ta, ⟨0, 20⟩,
        "Excessive forward torso lean during hitting motion. Too much forward lean can compromise power generation, reduce contact height, and affect balance. Maintain more upright posture."⟩]
    else []
  | none => []

/-- Rule 9, Slow Acceleration Phase. -/
def rule9 (accelerationPhase : Option MovementPhase) : List Weakness :=
  match accelerationPhase with
  | some ap =>
    if (6 / 10 : ℚ) < ap.duration then
      [⟨"Timing", "Slow Acceleration Phase",
        (if (8 / 10 : ℚ) < ap.duration then Severity.medium else Severity.low),
        ap.duration, ⟨(2 / 10 : ℚ), (5 / 10 : ℚ)⟩,
        "Acceleration phase is taking too long. A quick, explosive acceleration generates more power. Prolonged acceleration suggests lack of explosive strength or timing issues."⟩]
    else []
  | none => []

/-- Rule 10, Prolonged Preparation. -/
def rule10 (preparationPhase : Option MovementPhase) : List Weakness :=
  match preparationPhase with
  | some pp =>
    if (12 / 10 : ℚ) < pp.duration then
      [⟨"Timing", "Prolonged Preparation", Severity.low, pp.duration, ⟨(3 / 10 : ℚ), 1⟩,
        "Preparation phase is longer than optimal. While proper preparation is important, excessive time can indicate hesitation or inefficient movement patterns."⟩]
    else []
  | none => []

/-- Rule 11, Weak Acceleration. -/
def rule11 (accelerationPhase : Option MovementPhase) : List Weakness :=
  match accelerationPhase with
  | some ap =>
    if ap.avgVelocity < (4 / 10 : ℚ) then
      [⟨"Power Generation", "Weak Acceleration",
        (if ap.avgVelocity < (3 / 10 : ℚ) then Severity.high else Severity.medium),
        ap.avgVelocity, ⟨(5 / 10 : ℚ), (15 / 10 : ℚ)⟩,
        "Arm speed during acceleration phase is below optimal. This phase should be explosive and fast. Low velocity suggests weak power generation or incomplete kinetic chain engagement."⟩]
    else []
  | none => []

/-- Rule 12, Limited Shoulder Range. -/
def rule12 (metrics : KeyMetrics) : List Weakness :=
  match metrics.maxShoulderAngle with
  | some sa =>
    if sa < 120 then
      [⟨"Shoulder Mechanics", "Limited Shoulder Range",
        (if sa < 100 then Severity.high else Severity.medium), sa, ⟨130, 180⟩,
        "Limited shoulder range of motion restricts arm swing path and reduces power. Full shoulder mobility is essential for optimal hitting mechanics and injury prevention."⟩]
    else []
  | none => []

/-- The twelve weakness rules of `detectWeaknesses` in source evaluation
order; each contributes zero or one `Weakness`.  The bodies of the rules are
the separate `rule1` .. `rule12` definitions above. -/
def weaknessRules (metrics : KeyMetrics) (phases : List MovementPhase)
    (keyMoments : List KeyMoment) : List Weakness :=
  let contactMoment := keyMoments.find? (fun m => m.label == "Maximum Extension")
  let peakVelocityMoment := keyMoments.find? (fun m => m.label == "Peak Velocity")
  let preparationPhase := phases.find? (fun p => p.name == "Preparation")
  let accelerationPhase := phases.find? (fun p => p.name == "Acceleration")
  rule1 contactMoment ++ rule2 contactMoment ++ rule3 metrics ++ rule4 metrics
    ++ rule5 metrics ++ rule6 peakVelocityMoment contactMoment ++ rule7 metrics
    ++ rule8 metrics ++ rule9 accelerationPhase ++ rule10 preparationPhase
    ++ rule11 accelerationPhase ++ rule12 metrics

/-- `detectWeaknesses` from `src/services/weaknessDetector.ts`: the twelve
rules in order, stable-sorted by severity descending. -/
def detectWeaknesses (metrics : KeyMetrics) (phases : List MovementPhase)
    (keyMoments : List KeyMoment) : List Weakness :=
  List.mergeSort (weaknessRules metrics phases keyMoments) severityDescLe

/-! ### Drill recommendation matcher, from `src/services/drillRecommendations.ts`
(the module of `generateDrillRecommendations` / `selectDrillsForWeakness`) -/

/-- `DRILL_DATABASE` from `src/data/drills.ts`: the static read-only drill
catalog, in source order.  (No entry sets the optional `videoUrl`.) -/
def DRILL_DATABASE : List Drill := [
  { id := "wall_touches",
    name := "Wall Touches",
    description :=
      "Practice reaching high contact point against a wall to develop proper arm extension and contact height.",
    category := "Arm Mechanics",
    difficulty := "beginner",
    equipment := ["Wall"],
    focusAreas := ["Contact height", "Arm extension", "Reach", "Shoulder mobility"],
    instructions :=
      ["Stand facing a wall with feet shoulder-width apart",
       "Raise your hitting arm and touch the wall at the highest point possible",
       "Ensure your elbow is fully extended at contact",
       "Hold for 1 second, then lower and repeat",
       "Focus on consistent high contact point"],
    sets := "3 sets of 20 repetitions" },
  { id := "medicine_ball_throws",
    name := "Overhead Medicine Ball Throws",
    description :=
      "Develop explosive arm extension and power generation through overhead throwing motion.",
    category := "Arm Mechanics",
    difficulty := "intermediate",
    equipment := ["Medicine ball (2-4kg)", "Wall or partner"],
    focusAreas := ["Arm extension", "Power generation", "Explosive strength", "Follow-through"],
    instructions :=
      ["Hold medicine ball overhead with both hands",
       "Step forward with opposite foot",
       "Explosively throw ball forward and downward",
       "Focus on full arm extension at release",
       "Follow through completely"],
    sets := "4 sets of 10 throws" },
  { id := "resistance_band_extensions",
    name := "Resistance Band Arm Extensions",
    description :=
      "Strengthen arm extension mechanics and build muscle memory for proper hitting motion.",
    category := "Arm Mechanics",
    difficulty := "beginner",
    equipment := ["Resistance band"],
    focusAreas := ["Elbow extension", "Arm strength", "Movement pattern"],
    instructions :=
      ["Anchor resistance band at shoulder height",
       "Start with elbow bent at 90 degrees",
       "Extend arm fully in hitting motion",
       "Control the return slowly",
       "Maintain consistent speed throughout"],
    sets := "3 sets of 15 repetitions per arm" },
  { id := "platform_hitting",
    name := "Platform Hitting",
    description :=
      "Practice hitting from elevated platform to develop high contact point without jumping.",
    category := "Arm Mechanics",
    difficulty := "intermediate",
    equipment := ["Platform/box", "Ball", "Net"],
    focusAreas := ["Contact point", "Arm swing", "Timing"],
    instructions :=
      ["Stand on elevated platform near net",
       "Have partner toss balls to hitting position",
       "Focus solely on arm mechanics and contact point",
       "Hit 10 balls, focusing on consistent high contact",
       "Gradually increase power while maintaining form"],
    sets := "5 sets of 10 hits" },
  { id := "hip_rotation_throws",
    name := "Rotational Medicine Ball Throws",
    description :=
      "Develop hip and core rotation power that transfers through the kinetic chain to the arm.",
    category := "Power Generation",
    difficulty := "intermediate",
    equipment := ["Medicine ball (3-5kg)", "Wall"],
    focusAreas := ["Hip rotation", "Core power", "Energy transfer", "Torso rotation"],
    instructions :=
      ["Stand sideways to wall with medicine ball",
       "Rotate hips and torso explosively",
       "Throw ball into wall with side-throw motion",
       "Catch and repeat immediately",
       "Focus on initiating power from hips"],
    sets := "3 sets of 12 throws per side" },
  { id := "approach_jumps",
    name := "Approach Jump Training",
    description :=
      "Build explosive power and proper approach mechanics for generating maximum vertical force.",
    category := "Power Generation",
    difficulty := "intermediate",
    equipment := ["Court space", "Optional: measuring tape"],
    focusAreas := ["Approach speed", "Jump height", "Power generation", "Timing"],
    instructions :=
      ["Practice full approach (3 or 4 steps)",
       "Focus on accelerating through approach",
       "Convert horizontal momentum to vertical",
       "Swing arms explosively upward",
       "Land softly with controlled knee bend"],
    sets := "5 sets of 5 approaches" },
  { id := "box_jumps",
    name := "Box Jumps",
    description :=
      "Develop explosive leg power and vertical jumping ability critical for high contact point.",
    category := "Power Generation",
    difficulty := "intermediate",
    equipment := ["Plyo box or platform (18-30 inches)"],
    focusAreas := ["Explosive power", "Jump height", "Leg strength"],
    instructions :=
      ["Start in athletic stance facing box",
       "Swing arms back then explosively forward",
       "Jump onto box with both feet",
       "Land softly with knees bent",
       "Step down carefully, reset, and repeat"],
    sets := "4 sets of 8 jumps" },
  { id := "kettlebell_swings",
    name := "Kettlebell Swings",
    description :=
      "Build posterior chain power and hip drive that translates to explosive hitting motion.",
    category := "Power Generation",
    difficulty := "advanced",
    equipment := ["Kettlebell (8-16kg)"],
    focusAreas := ["Hip power", "Posterior chain", "Explosive strength"],
    instructions :=
      ["Stand with feet shoulder-width apart",
       "Hinge at hips, swing kettlebell between legs",
       "Explosively drive hips forward",
       "Swing kettlebell to chest/shoulder height",
       "Let momentum carry it, do not lift with arms"],
    sets := "4 sets of 15 swings" },
  { id := "ball_drop_hits",
    name := "Ball Drop Hitting",
    description :=
      "Improve hand-eye coordination and timing by hitting balls dropped from various heights.",
    category := "Timing",
    difficulty := "beginner",
    equipment := ["Ball", "Partner or ball machine"],
    focusAreas := ["Timing", "Hand-eye coordination", "Reaction time"],
    instructions :=
      ["Partner holds ball at net height",
       "Partner drops ball",
       "Time your approach and swing to hit ball mid-drop",
       "Focus on contact timing and consistency",
       "Gradually increase drop complexity"],
    sets := "4 sets of 15 drops" },
  { id := "self_toss_hitting",
    name := "Self-Toss Hitting",
    description :=
      "Develop timing consistency and arm swing mechanics through self-controlled hitting.",
    category := "Timing",
    difficulty := "beginner",
    equipment := ["Ball", "Net"],
    focusAreas := ["Timing", "Arm swing", "Self-awareness", "Consistency"],
    instructions :=
      ["Toss ball up with non-hitting hand",
       "Time approach and swing",
       "Hit ball at peak of toss",
       "Focus on consistent toss height",
       "Gradually add approach steps"],
    sets := "5 sets of 10 hits" },
  { id := "rhythm_approaches",
    name := "Rhythm Approach Practice",
    description :=
      "Develop consistent approach timing and footwork rhythm without the ball.",
    category := "Timing",
    difficulty := "beginner",
    equipment := ["Court space"],
    focusAreas := ["Approach timing", "Footwork rhythm", "Consistency"],
    instructions :=
      ["Practice approach footwork repeatedly",
       "Count rhythm out loud (e.g., \"1-2-3\")",
       "Focus on consistent timing",
       "Gradually increase speed",
       "Add arm swing without ball"],
    sets := "10 sets of 5 approaches" },
  { id := "core_rotation_exercises",
    name := "Russian Twists",
    description :=
      "Strengthen core rotational strength essential for powerful hitting motion.",
    category := "Body Positioning",
    difficulty := "beginner",
    equipment := ["Optional: medicine ball or weight"],
    focusAreas := ["Core strength", "Rotational power", "Torso control"],
    instructions :=
      ["Sit on floor with knees bent, feet elevated",
       "Hold weight or medicine ball at chest",
       "Rotate torso side to side",
       "Touch weight to floor on each side",
       "Keep core engaged throughout"],
    sets := "3 sets of 30 twists (15 each side)" },
  { id := "plank_variations",
    name := "Plank Hold Variations",
    description :=
      "Build core stability and posture control necessary for maintaining proper body position.",
    category := "Body Positioning",
    difficulty := "beginner",
    equipment := ["Mat (optional)"],
    focusAreas := ["Core stability", "Posture", "Body control"],
    instructions :=
      ["Hold forearm plank position",
       "Keep body straight from head to heels",
       "Engage core, avoid sagging or raising hips",
       "Breathe steadily",
       "Alternate with side planks"],
    sets := "3 sets of 45-60 seconds per position" },
  { id := "balance_single_leg",
    name := "Single-Leg Balance Exercises",
    description :=
      "Improve balance and body control during approach and landing.",
    category := "Body Positioning",
    difficulty := "beginner",
    equipment := ["Balance board (optional)"],
    focusAreas := ["Balance", "Body control", "Stability"],
    instructions :=
      ["Stand on one leg",
       "Maintain balance for 30 seconds",
       "Add arm swing movements",
       "Close eyes for increased difficulty",
       "Switch legs and repeat"],
    sets := "3 sets of 30 seconds per leg" },
  { id := "shoulder_circles",
    name := "Dynamic Shoulder Circles",
    description :=
      "Improve shoulder mobility and prepare shoulder joint for explosive hitting motion.",
    category := "Shoulder Mechanics",
    difficulty := "beginner",
    equipment := ["None"],
    focusAreas := ["Shoulder mobility", "Range of motion", "Warm-up"],
    instructions :=
      ["Stand with arms extended to sides",
       "Make large circles forward for 30 seconds",
       "Reverse direction for 30 seconds",
       "Gradually increase circle size",
       "Keep movements controlled"],
    sets := "3 sets of 30 seconds each direction" },
  { id := "arm_swing_practice",
    name := "Shadow Arm Swing",
    description :=
      "Practice and refine arm swing mechanics without ball to develop muscle memory.",
    category := "Shoulder Mechanics",
    difficulty := "beginner",
    equipment := ["Mirror (optional)"],
    focusAreas := ["Arm swing path", "Shoulder mechanics", "Movement pattern"],
    instructions :=
      ["Stand in front of mirror if available",
       "Practice full arm swing motion slowly",
       "Focus on proper arm path and elbow position",
       "Gradually increase speed",
       "Perform 50 perfect swings"],
    sets := "3 sets of 50 swings" },
  { id := "controlled_follow_through",
    name := "Controlled Follow-Through Practice",
    description :=
      "Develop proper follow-through mechanics to prevent injury and maintain power.",
    category := "Follow-Through",
    difficulty := "intermediate",
    equipment := ["Ball", "Net"],
    focusAreas := ["Follow-through", "Deceleration", "Injury prevention"],
    instructions :=
      ["Hit ball with focus on complete follow-through",
       "Allow arm to swing naturally across body",
       "Control deceleration of arm",
       "Land balanced and ready",
       "Never stop arm abruptly"],
    sets := "4 sets of 12 hits" },
  { id := "eccentric_arm_strengthening",
    name := "Eccentric Arm Lowering",
    description :=
      "Build strength in the deceleration phase to protect shoulder and improve control.",
    category := "Follow-Through",
    difficulty := "intermediate",
    equipment := ["Light dumbbell (1-3kg)"],
    focusAreas := ["Eccentric strength", "Shoulder protection", "Deceleration control"],
    instructions :=
      ["Hold light dumbbell in hitting hand",
       "Raise arm to hitting position",
       "Lower arm very slowly (5 seconds)",
       "Follow natural hitting path",
       "Repeat for 10 reps"],
    sets := "3 sets of 10 repetitions" },
  { id := "repetitive_hitting",
    name := "High-Volume Hitting",
    description :=
      "Build consistency through high-repetition hitting focusing on repeatable mechanics.",
    category := "Consistency",
    difficulty := "intermediate",
    equipment := ["Ball", "Net", "Setter or ball machine"],
    focusAreas := ["Consistency", "Repeatability", "Muscle memory"],
    instructions :=
      ["Have setter provide consistent sets",
       "Focus on identical approach and swing each time",
       "Aim for same target spot",
       "Monitor fatigue and maintain form",
       "Take brief breaks between sets"],
    sets := "5 sets of 20 hits" },
  { id := "target_hitting",
    name := "Target Zone Hitting",
    description :=
      "Improve accuracy and consistency by hitting to specific court zones repeatedly.",
    category := "Consistency",
    difficulty := "intermediate",
    equipment := ["Ball", "Net", "Target markers"],
    focusAreas := ["Accuracy", "Consistency", "Control"],
    instructions :=
      ["Place targets in different court zones",
       "Hit 10 balls to each target zone",
       "Focus on consistent mechanics to each zone",
       "Adjust approach angle, not swing mechanics",
       "Track success rate"],
    sets := "4 sets to 3 different zones" },
  { id := "plyometric_hitting",
    name := "Plyometric Box Hitting",
    description :=
      "Advanced drill combining explosive jumping with hitting mechanics.",
    category := "Power Generation",
    difficulty := "advanced",
    equipment := ["Plyo box", "Ball", "Net", "Setter"],
    focusAreas := ["Explosive power", "Timing", "Coordination"],
    instructions :=
      ["Start on plyo box",
       "Jump off box as setter tosses",
       "Time approach to meet ball at peak",
       "Focus on explosive power and timing",
       "Land safely with bent knees"],
    sets := "4 sets of 8 hits" },
  { id := "weighted_ball_training",
    name := "Weighted Ball Hitting",
    description :=
      "Build arm strength and power using slightly heavier volleyball.",
    category := "Power Generation",
    difficulty := "advanced",
    equipment := ["Weighted volleyball (6-7 oz)", "Net"],
    focusAreas := ["Arm strength", "Power", "Contact strength"],
    instructions :=
      ["Use volleyball 1-2 oz heavier than standard",
       "Perform normal hitting routine",
       "Focus on maintaining form despite added weight",
       "Limit reps to prevent fatigue",
       "Alternate with standard ball"],
    sets := "3 sets of 10 hits" },
  { id := "live_game_simulation",
    name := "Game Situation Hitting",
    description :=
      "Practice hitting in realistic game scenarios to transfer training to competition.",
    category := "Consistency",
    difficulty := "advanced",
    equipment := ["Full team setup", "Ball", "Net"],
    focusAreas := ["Game application", "Decision making", "Consistency under pressure"],
    instructions :=
      ["Set up realistic game scenarios",
       "Practice hitting with blockers",
       "Make decisions about shot placement",
       "Maintain mechanics under pressure",
       "Simulate fatigue conditions"],
    sets := "Variable based on drill" }]

/-- Lookup in a JS string-keyed record literal, modelled as an association
list in source key order. -/
def lookupMap (m : List (String × List String)) (k : String) : Option (List String) :=
  (m.find? (fun p => p.1 == k)).map Prod.snd

/-- `WEAKNESS_TO_CATEGORY_MAP`: weakness issues to drill-category sets. -/
def WEAKNESS_TO_CATEGORY_MAP : List (String × List String) := [
  ("Low Contact Point", ["Arm Mechanics", "Power Generation"]),
  ("Incomplete Arm Extension", ["Arm Mechanics", "Shoulder Mechanics"]),
  ("Insufficient Arm Cocking", ["Arm Mechanics", "Shoulder Mechanics"]),
  ("Limited Arm Extension Range", ["Arm Mechanics", "Shoulder Mechanics"]),
  ("Low Hand Speed", ["Power Generation", "Arm Mechanics"]),
  ("Poor Velocity Timing", ["Timing", "Consistency"]),
  ("Limited Vertical Jump", ["Power Generation"]),
  ("Excessive Forward Lean", ["Body Positioning", "Consistency"]),
  ("Slow Acceleration Phase", ["Timing", "Power Generation"]),
  ("Prolonged Preparation", ["Timing", "Consistency"]),
  ("Weak Acceleration", ["Power Generation", "Arm Mechanics"]),
  ("Limited Shoulder Range", ["Shoulder Mechanics", "Arm Mechanics"])]

/-- `WEAKNESS_TO_DRILL_MAP`: weakness issues to specific drill ids, in
priority order. -/
def WEAKNESS_TO_DRILL_MAP : List (String × List String) := [
  ("Low Contact Point",
    ["wall_touches", "platform_hitting", "box_jumps", "approach_jumps"]),
  ("Incomplete Arm Extension",
    ["resistance_band_extensions", "wall_touches", "medicine_ball_throws", "arm_swing_practice"]),
  ("Insufficient Arm Cocking",
    ["arm_swing_practice", "shoulder_circles", "resistance_band_extensions", "medicine_ball_throws"]),
  ("Limited Arm Extension Range",
    ["shoulder_circles", "arm_swing_practice", "wall_touches", "medicine_ball_throws"]),
  ("Low Hand Speed",
    ["medicine_ball_throws", "hip_rotation_throws", "box_jumps", "kettlebell_swings"]),
  ("Poor Velocity Timing",
    ["ball_drop_hits", "self_toss_hitting", "rhythm_approaches", "repetitive_hitting"]),
  ("Limited Vertical Jump",
    ["box_jumps", "approach_jumps", "plyometric_hitting", "kettlebell_swings"]),
  ("Excessive Forward Lean",
    ["core_rotation_exercises", "plank_variations", "balance_single_leg", "arm_swing_practice"]),
  ("Slow Acceleration Phase",
    ["medicine_ball_throws", "hip_rotation_throws", "rhythm_approaches", "ball_drop_hits"]),
  ("Prolonged Preparation",
    ["rhythm_approaches", "self_toss_hitting", "ball_drop_hits", "repetitive_hitting"]),
  ("Weak Acceleration",
    ["medicine_ball_throws", "hip_rotation_throws", "resistance_band_extensions", "kettlebell_swings"]),
  ("Limited Shoulder Range",
    ["shoulder_circles", "arm_swing_practice", "resistance_band_extensions", "medicine_ball_throws"])]

/-- Strategy 1 of `selectDrillsForWeakness`: the first three ids of the
specific mapping for the issue, resolved against the catalog, keeping only
the ids that exist; `[]` when the issue has no specific mapping. -/
def specificDrills (issue : String) : List Drill :=
  match lookupMap WEAKNESS_TO_DRILL_MAP issue with
  | some specificDrillIds =>
    (specificDrillIds.take 3).filterMap
      (fun drillId => DRILL_DATABASE.find? (fun d => d.id == drillId))
  | none => []

/-- `selectDrillsForWeakness`: specific mapping first; if fewer than three
drills were found, category fallback — one beginner entry only when nothing
was chosen yet, then one intermediate entry, then at most one further unused
category match — capped at three drills. -/
def selectDrillsForWeakness (weakness : Weakness) : List Drill :=
  let drills := specificDrills weakness.issue
  let drills :=
    if drills.length < 3 then
      let categories :=
        (lookupMap WEAKNESS_TO_CATEGORY_MAP weakness.issue).getD [weakness.category]
      let categoryDrills :=
        DRILL_DATABASE.filter (fun drill =>
          categories.contains drill.category
            && !(drills.any (fun d => d.id == drill.id)))
      let beginnerDrills := categoryDrills.filter (fun d => d.difficulty == "beginner")
      let intermediateDrills := categoryDrills.filter (fun d => d.difficulty == "intermediate")
      let drills :=
        if drills.length = 0 ∧ 0 < beginnerDrills.length then
          drills ++ beginnerDrills.take 1
        else drills
      let drills :=
        if drills.length < 3 ∧ 0 < intermediateDrills.length then
          drills ++ intermediateDrills.take 1
        else drills
      let drills :=
        if drills.length < 3 ∧ 0 < categoryDrills.length then
          let remaining :=
            categoryDrills.filter (fun d => !(drills.any (fun existing => existing.id == d.id)))
          drills ++ remaining.take 1
        else drills
      drills
    else drills
  drills.take 3

/-- The indexed conditional-push loop of `generateDrillRecommendations`:
`i` is the index of the head of `ws` within the processed top-5 list. -/
def recommendationsAux (i : ℕ) : List Weakness → List DrillRecommendation
  | [] => []
  | w :: ws =>
    let recommendedDrills := selectDrillsForWeakness w
    (if 0 < recommendedDrills.length then [⟨w, recommendedDrills, (i : ℤ) + 1⟩] else [])
      ++ recommendationsAux (i + 1) ws

/-- `generateDrillRecommendations`: process the first five weaknesses of the
(severity-sorted) input; for each, emit a recommendation with
`priority = index + 1` unless no drill was selected. -/
def generateDrillRecommendations (weaknesses : List Weakness) : List DrillRecommendation :=
  recommendationsAux 0 (weaknesses.take 5)

/-! ### Report assembly, from `src/services/movementAnalyzer.ts` -/

/-- `{ ...DEFAULT_OPTIONS, ...options }`: each option falls back to its
default (`minVisibility` (5 / 10 : ℚ), `smoothingWindow` 3, `velocityThreshold` (1 / 10 : ℚ))
when absent. -/
def mergeOptions (options : AnalysisOptions) : AnalysisOptions :=
  ⟨some (options.minVisibility.getD (5 / 10 : ℚ)),
   some (options.smoothingWindow.getD 3),
   some (options.velocityThreshold.getD (1 / 10 : ℚ))⟩

/-- The movement report; metadata plus all computed components, from
`src/types/report.ts` (`MovementReport`).  The free-text `overallInsights`
are not modelled. -/
structure MovementReport where
  videoFilename : String
  processedAt : String
  totalFrames : ℤ
  duration : ℚ
  fps : ℚ
  analysisFrames : ℕ
  keyMetrics : KeyMetrics
  phases : List MovementPhase
  keyMoments : List KeyMoment
  velocities : List VelocityDataPoint
  angles : List AngleDataPoint
  weaknesses : List Weakness
  drillRecommendations : List DrillRecommendation
deriving Inhabited

/-- `generateMovementReport` from `src/services/movementAnalyzer.ts`: the
one-shot batch pass building the report from the frame list.

Modelled from the spec: the attachment of `weaknesses` (via
`detectWeaknesses` on the computed metrics, phases and key moments) and
`drillRecommendations` (via `generateDrillRecommendations` on those
weaknesses) follows the specification (section 2 item 9 and the
`MovementReport` data model, whose type requires both fields); the assembler
statement populating these two fields is absent from the available
`movementAnalyzer.ts` source, which predates the report type.  All other
fields are assembled exactly as in the available source. -/
def generateMovementReport (P : MathPrims) (analysis : AnalysisResult)
    (options : AnalysisOptions) : MovementReport :=
  let opts := mergeOptions options
  let velocityData := calculateVelocityTimeline P analysis.frames opts
  let angleData := calculateAngleTimeline P analysis.frames opts
  let keyMoments := detectKeyMoments P analysis.frames velocityData angleData
  let phases := detectMovementPhases analysis.frames velocityData keyMoments
  let keyMetrics := calculateKeyMetrics P analysis.frames velocityData angleData
  let weaknesses := detectWeaknesses keyMetrics phases keyMoments
  let drillRecommendations := generateDrillRecommendations weaknesses
  ⟨analysis.video_filename, analysis.processed_at, analysis.video_info.total_frames,
   analysis.video_info.duration_seconds, analysis.video_info.fps,
   analysis.frames.length, keyMetrics, phases, keyMoments, velocityData, angleData,
   weaknesses, drillRecommendations⟩

/-! ### Statement-side definitions

Definitions in this block are not translations of source functions: they
state, in executable form, what the specification text asserts (for
comparison with the source translations above) or package concrete inputs
used by closed statements below. -/

/-- The all-neutral `KeyMetrics` record the specification describes for an
empty measurement population: `0` for the velocity fields and the extension
range, `null` for every nullable field. -/
def neutralKeyMetrics : KeyMetrics :=
  ⟨0, 0, 0, none, none, none, ⟨0, 0, 0⟩, none, none, none, none, none⟩

/-- The drill selection as claim C6 words it: when the specific mapping
yields fewer than three drills, category-match with exclusion of the drills
already chosen, prefer one beginner then one intermediate entry (by catalog
order) even when one or two specific drills were already found, then fill
ALL remaining slots (up to the cap of three) with other unused category
matches. -/
def selectDrillsClaimed (weakness : Weakness) : List Drill :=
  let drills := specificDrills weakness.issue
  if 3 ≤ drills.length then drills.take 3
  else
    let categories :=
      (lookupMap WEAKNESS_TO_CATEGORY_MAP weakness.issue).getD [weakness.category]
    let categoryDrills :=
      DRILL_DATABASE.filter (fun drill =>
        categories.contains drill.category
          && !(drills.any (fun d => d.id == drill.id)))
    let withBeginner :=
      drills ++ (categoryDrills.filter (fun d => d.difficulty == "beginner")).take 1
    let withBoth :=
      withBeginner ++
        (categoryDrills.filter (fun d =>
          d.difficulty == "intermediate"
            && !(withBeginner.any (fun e => e.id == d.id)))).take 1
    (withBoth ++
      categoryDrills.filter (fun d => !(withBoth.any (fun e => e.id == d.id)))).take 3

/-- The category fallback the code actually performs when no specific drill
was found (the amended form of claim C6): at most one beginner entry, then
at most one intermediate entry, then at most ONE further unused category
match — so the result can have two drills even when more matches remain. -/
def categoryFallback (weakness : Weakness) : List Drill :=
  let categories :=
    (lookupMap WEAKNESS_TO_CATEGORY_MAP weakness.issue).getD [weakness.category]
  let categoryDrills :=
    DRILL_DATABASE.filter (fun drill => categories.contains drill.category)
  let firstTwo :=
    (categoryDrills.filter (fun d => d.difficulty == "beginner")).take 1
      ++ (categoryDrills.filter (fun d => d.difficulty == "intermediate")).take 1
  firstTwo ++
    (categoryDrills.filter (fun d => !(firstTwo.any (fun e => e.id == d.id)))).take 1

/-- The integer interval `[a, b]` as a list, for stating that the emitted
phases partition the frame range. -/
def intRange (a b : ℤ) : List ℤ :=
  (List.range (b + 1 - a).toNat).map (fun (i : ℕ) => a + (i : ℤ))

/-! ### Concrete sample inputs for closed statements -/

/-- A weakness whose issue has no specific drill mapping and whose own
category is Power Generation (a category with no beginner drill). -/
def unmappedPowerWeakness : Weakness :=
  ⟨"Power Generation", "Uncatalogued Issue", Severity.medium, 0, ⟨0, 0⟩, ""⟩

/-- A Maximum Extension moment carrying a body-height metric of 0.5. -/
def contactMomentHalf : KeyMoment :=
  ⟨10, 1, "Maximum Extension", ⟨none, none, none, none, some (5 / 10 : ℚ)⟩⟩

/-- The Low Hand Speed weakness that rule 5 emits on all-neutral metrics. -/
def lowHandSpeedNeutral : Weakness :=
  ⟨"Power Generation", "Low Hand Speed", Severity.high, 0, ⟨(8 / 10 : ℚ), 2⟩,
   "Hand speed at contact is below optimal. Higher hand velocity generates more ball speed and power. This suggests lack of explosive power or inefficient kinetic chain."⟩

/-- A Peak Velocity moment at frame 0 (a falsy frame number). -/
def peakVelocityMomentZero : KeyMoment :=
  ⟨0, 0, "Peak Velocity", ⟨none, none, none, none, none⟩⟩

/-- A Peak Velocity moment at frame 7. -/
def peakVelocityMomentSeven : KeyMoment :=
  ⟨7, (7 / 10 : ℚ), "Peak Velocity", ⟨none, none, none, none, none⟩⟩

/-- A nine-point velocity timeline on frames 1..9; its median-index entry is
the frame-5 point. -/
def nineVelocityPoints : List VelocityDataPoint :=
  (List.range 9).map (fun i => ⟨(i : ℤ) + 1, ((i : ℚ) + 1) / 10, 1, "Right Wrist"⟩)

/-- A frame (number 0) whose keypoints give a defined right-arm extension
(shoulder and wrist fully visible) but which carries no velocity data. -/
def armOnlyFrame : FrameData :=
  ⟨0, 0, [⟨12, "RIGHT_SHOULDER", (2 / 10 : ℚ), (2 / 10 : ℚ), 0, 1⟩, ⟨16, "RIGHT_WRIST", (6 / 10 : ℚ), (2 / 10 : ℚ), 0, 1⟩]⟩

/-- A frame (number 0) with fully visible right shoulder, elbow and wrist,
so its right-elbow angle entry is non-null. -/
def armChainFrame : FrameData :=
  ⟨0, 0,
   [⟨12, "RIGHT_SHOULDER", (5 / 10 : ℚ), (3 / 10 : ℚ), 0, 1⟩,
    ⟨14, "RIGHT_ELBOW", (5 / 10 : ℚ), (45 / 100 : ℚ), 0, 1⟩,
    ⟨16, "RIGHT_WRIST", (6 / 10 : ℚ), (45 / 100 : ℚ), 0, 1⟩]⟩

/-- An analysis result with no frames. -/
def emptyAnalysis : AnalysisResult :=
  ⟨"empty.mp4", "2024-01-01", ⟨30, 0, 640, 480, 0⟩, 33, []⟩

/-- An analysis result with exactly one frame, whose landmarks are visible
enough to yield angle and extension measurements. -/
def oneFrameAnalysis : AnalysisResult :=
  ⟨"one.mp4", "2024-01-01", ⟨30, 1, 640, 480, 0⟩, 33, [armChainFrame]⟩

/-- Four consecutive frames 0..3 (keypoints irrelevant to segmentation). -/
def fourFrames : List FrameData :=
  [⟨0, 0, []⟩, ⟨1, (1 / 10 : ℚ), []⟩, ⟨2, (2 / 10 : ℚ), []⟩, ⟨3, (3 / 10 : ℚ), []⟩]

/-- A velocity timeline on frames 1..3 peaking at frame 2. -/
def threeVelocityPoints : List VelocityDataPoint :=
  [⟨1, (1 / 10 : ℚ), 1, "Right Wrist"⟩, ⟨2, (2 / 10 : ℚ), 2, "Right Wrist"⟩, ⟨3, (3 / 10 : ℚ), 1, "Right Wrist"⟩]

/-- A Peak Velocity moment at frame 2. -/
def peakVelocityMomentTwo : KeyMoment :=
  ⟨2, (2 / 10 : ℚ), "Peak Velocity", ⟨some 2, none, none, none, none⟩⟩

/-- Ten consecutive frames 0..9. -/
def tenFrames : List FrameData :=
  (List.range 10).map (fun i => ⟨(i : ℤ), (i : ℚ) / 10, []⟩)

/-- A keypoint at the origin with full visibility. -/
def kpOrigin : Keypoint := ⟨12, "RIGHT_SHOULDER", 0, 0, 0, 1⟩

/-- A keypoint one unit along x. -/
def kpUnitX : Keypoint := ⟨14, "RIGHT_ELBOW", 1, 0, 0, 1⟩

/-- A keypoint one unit along y. -/
def kpUnitY : Keypoint := ⟨16, "RIGHT_WRIST", 0, 1, 0, 1⟩

/-! ## Claim theorems -/

/-! ### Claim C9: the phase anchor -/

/-- C9 (amended): `detectMovementPhases` anchors on the Peak-Velocity
moment's frame when that frame is nonzero; when the moment is absent OR its
frame number is 0 (a falsy value swallowed by the JS `||`), it falls back to
the median-index frame of the velocity timeline. -/
theorem phaseAnchor_spec (velocityData : List VelocityDataPoint)
    (keyMoments : List KeyMoment) :
    (∀ m, keyMoments.find? (fun k => k.label == "Peak Velocity") = some m →
      (m.frame ≠ 0 → phaseAnchor velocityData keyMoments = m.frame) ∧
      (m.frame = 0 →
        phaseAnchor velocityData keyMoments = medianVelocityFrame velocityData)) ∧
    (keyMoments.find? (fun k => k.label == "Peak Velocity") = none →
      phaseAnchor velocityData keyMoments = medianVelocityFrame velocityData) := by
  constructor
  · intro m hm
    constructor
    · intro h
      simp [phaseAnchor, hm, h]
    · intro h
      simp [phaseAnchor, hm, h]
  · intro h
    simp [phaseAnchor, h]

/-- C9 (witness): at a concrete input with a Peak-Velocity moment at frame 7
the anchor is 7. -/
theorem phaseAnchor_spec_witness :
    phaseAnchor nineVelocityPoints [peakVelocityMomentSeven] = 7 :=
  ((phaseAnchor_spec nineVelocityPoints [peakVelocityMomentSeven]).1
    peakVelocityMomentSeven (by decide!)).1 (by decide!)

/-- C9 (counterexample): a Peak-Velocity moment at frame 0 exists, yet the
anchor is the median-index frame 5 of the velocity timeline, not the
moment's frame 0 — refuting the claim that the moment's frame is used
"including when that frame number is 0". -/
theorem phaseAnchor_zero_refuted :
    (([peakVelocityMomentZero].find? (fun k => k.label == "Peak Velocity")).map
      KeyMoment.frame = some 0) ∧
    phaseAnchor nineVelocityPoints [peakVelocityMomentZero] = 5 ∧ (5 : ℤ) ≠ 0 := by
  decide!

/-! ### Claim C1: the Low Contact Point rule -/

/-- Rule 1 fires on a contact moment whose body height exceeds (45 / 100 : ℚ), with
severity high above (55 / 100 : ℚ) and medium otherwise. -/
theorem rule1_fires (cm : KeyMoment) (y : ℚ) (hbh : cm.metrics.bodyHeight = some y)
    (hy : (45 / 100 : ℚ) < y) :
    ∃ w ∈ rule1 (some cm), w.issue = "Low Contact Point" ∧
      w.severity = (if (55 / 100 : ℚ) < y then Severity.high else Severity.medium) ∧
      w.detectedValue = y := by
  have hy0 : y ≠ 0 := by
    intro h0
    rw [h0] at hy
    norm_num at hy
  simp only [rule1, hbh]
  rw [if_pos ⟨hy0, hy⟩]
  exact ⟨_, List.mem_singleton_self _, rfl, rfl, rfl⟩

/-- C1: whenever the key-moment list contains a Maximum Extension (contact)
moment whose body-height metric `y` exceeds (45 / 100 : ℚ), `detectWeaknesses` emits a
Low Contact Point weakness with detected value `y`, of severity high when
`y` exceeds (55 / 100 : ℚ) and medium otherwise (so in particular medium at
`y = (5 / 10 : ℚ)`). -/
theorem detectWeaknesses_low_contact_point (metrics : KeyMetrics)
    (phases : List MovementPhase) (keyMoments : List KeyMoment)
    (cm : KeyMoment) (y : ℚ)
    (hfind : keyMoments.find? (fun m => m.label == "Maximum Extension") = some cm)
    (hbh : cm.metrics.bodyHeight = some y) (hy : (45 / 100 : ℚ) < y) :
    ∃ w ∈ detectWeaknesses metrics phases keyMoments,
      w.issue = "Low Contact Point" ∧
      w.severity = (if (55 / 100 : ℚ) < y then Severity.high else Severity.medium) ∧
      w.detectedValue = y := by
  obtain ⟨w, hwmem, hprops⟩ := rule1_fires cm y hbh hy
  refine ⟨w, ?_, hprops⟩
  rw [detectWeaknesses, List.mem_mergeSort]
  unfold weaknessRules
  rw [hfind]
  simp only [List.mem_append]
  simp [hwmem]

/-- C1 (witness): a Maximum Extension moment at body height exactly one half
(between 0.45 and 0.55) yields a Low Contact Point weakness of severity
medium. -/
theorem detectWeaknesses_low_contact_point_witness :
    (45 / 100 : ℚ) < 5 / 10 ∧
    ∃ w ∈ detectWeaknesses neutralKeyMetrics [] [contactMomentHalf],
      w.issue = "Low Contact Point" ∧
      w.severity = (if (55 / 100 : ℚ) < 5 / 10 then Severity.high else Severity.medium) ∧
      w.detectedValue = 5 / 10 :=
  ⟨by norm_num,
   detectWeaknesses_low_contact_point neutralKeyMetrics [] [contactMomentHalf]
     contactMomentHalf (5 / 10) (by decide!) rfl (by norm_num)⟩

/-! ### Claim C10: detected values lie strictly outside the optimal range -/

/-- Rule 1 only emits values above the optimal maximum 0.45. -/
theorem rule1_outside {cm : Option KeyMoment} {w : Weakness} (h : w ∈ rule1 cm) :
    w.detectedValue < w.optimalRange.min ∨ w.optimalRange.max < w.detectedValue := by
  rcases cm with _ | m
  · simp [rule1] at h
  rcases hv : m.metrics.bodyHeight with _ | bh
  · simp [rule1, hv] at h
  simp only [rule1, hv] at h
  by_cases hc : bh ≠ 0 ∧ (45 / 100 : ℚ) < bh
  · rw [if_pos hc] at h
    rcases List.mem_singleton.mp h with rfl
    exact Or.inr (by simpa using hc.2)
  · rw [if_neg hc] at h
    simp at h

/-- Rule 2 only emits values below the optimal minimum 160. -/
theorem rule2_outside {cm : Option KeyMoment} {w : Weakness} (h : w ∈ rule2 cm) :
    w.detectedValue < w.optimalRange.min ∨ w.optimalRange.max < w.detectedValue := by
  rcases cm with _ | m
  · simp [rule2] at h
  rcases hv : m.metrics.elbowAngle with _ | ea
  · simp [rule2, hv] at h
  simp only [rule2, hv] at h
  by_cases hc : ea < 160
  · rw [if_pos hc] at h
    rcases List.mem_singleton.mp h with rfl
    exact Or.inl (by simpa using hc)
  · rw [if_neg hc] at h
    simp at h

/-- Rule 3 only emits values above the optimal maximum 100. -/
theorem rule3_outside {metrics : KeyMetrics} {w : Weakness} (h : w ∈ rule3 metrics) :
    w.detectedValue < w.optimalRange.min ∨ w.optimalRange.max < w.detectedValue := by
  rcases hv : metrics.minElbowAngle with _ | mea
  · simp [rule3, hv] at h
  simp only [rule3, hv] at h
  by_cases hc : 100 < mea
  · rw [if_pos hc] at h
    rcases List.mem_singleton.mp h with rfl
    exact Or.inr (by simpa using hc)
  · rw [if_neg hc] at h
    simp at h

/-- Rule 4 only emits values below the optimal minimum 0.25. -/
theorem rule4_outside {metrics : KeyMetrics} {w : Weakness} (h : w ∈ rule4 metrics) :
    w.detectedValue < w.optimalRange.min ∨ w.optimalRange.max < w.detectedValue := by
  simp only [rule4] at h
  by_cases hc : metrics.armExtensionRange.range < (25 / 100 : ℚ)
  · rw [if_pos hc] at h
    rcases List.mem_singleton.mp h with rfl
    exact Or.inl (by simpa using hc)
  · rw [if_neg hc] at h
    simp at h

/-- Rule 5 only emits values below the optimal minimum 0.8. -/
theorem rule5_outside {metrics : KeyMetrics} {w : Weakness} (h : w ∈ rule5 metrics) :
    w.detectedValue < w.optimalRange.min ∨ w.optimalRange.max < w.detectedValue := by
  simp only [rule5] at h
  by_cases hc : metrics.peakVelocity < (8 / 10 : ℚ)
  · rw [if_pos hc] at h
    rcases List.mem_singleton.mp h with rfl
    exact Or.inl (by simpa using hc)
  · rw [if_neg hc] at h
    simp at h

/-- Rule 6 only emits values above the optimal maximum 0.1. -/
theorem rule6_outside {pv cm : Option KeyMoment} {w : Weakness} (h : w ∈ rule6 pv cm) :
    w.detectedValue < w.optimalRange.min ∨ w.optimalRange.max < w.detectedValue := by
  rcases pv with _ | p
  · simp [rule6] at h
  rcases cm with _ | m
  · simp [rule6] at h
  simp only [rule6] at h
  by_cases hc : (15 / 100 : ℚ) < |p.timestamp - m.timestamp|
  · rw [if_pos hc] at h
    rcases List.mem_singleton.mp h with rfl
    refine Or.inr ?_
    show (1 / 10 : ℚ) < |p.timestamp - m.timestamp|
    linarith
  · rw [if_neg hc] at h
    simp at h

/-- Rule 7 only emits values below the optimal minimum 0.08. -/
theorem rule7_outside {metrics : KeyMetrics} {w : Weakness} (h : w ∈ rule7 metrics) :
    w.detectedValue < w.optimalRange.min ∨ w.optimalRange.max < w.detectedValue := by
  rcases hv : metrics.jumpHeight with _ | jh
  · simp [rule7, hv] at h
  simp only [rule7, hv] at h
  by_cases hc : jh < (8 / 100 : ℚ)
  · rw [if_pos hc] at h
    rcases List.mem_singleton.mp h with rfl
    exact Or.inl (by simpa using hc)
  · rw [if_neg hc] at h
    simp at h

/-- Rule 8 only emits values above the optimal maximum 20. -/
theorem rule8_outside {metrics : KeyMetrics} {w : Weakness} (h : w ∈ rule8 metrics) :
    w.detectedValue < w.optimalRange.min ∨ w.optimalRange.max < w.detectedValue := by
  rcases hv : metrics.averageTorsoAngle with _ | ta
  · simp [rule8, hv] at h
  simp only [rule8, hv] at h
  by_cases hc : 25 < ta
  · rw [if_pos hc] at h
    rcases List.mem_singleton.mp h with rfl
    refine Or.inr ?_
    show (20 : ℚ) < ta
    linarith
  · rw [if_neg hc] at h
    simp at h

/-- Rule 9 only emits values above the optimal maximum 0.5. -/
theorem rule9_outside {ap : Option MovementPhase} {w : Weakness} (h : w ∈ rule9 ap) :
    w.detectedValue < w.optimalRange.min ∨ w.optimalRange.max < w.detectedValue := by
  rcases ap with _ | p
  · simp [rule9] at h
  simp only [rule9] at h
  by_cases hc : (6 / 10 : ℚ) < p.duration
  · rw [if_pos hc] at h
    rcases List.mem_singleton.mp h with rfl
    refine Or.inr ?_
    show (5 / 10 : ℚ) < p.duration
    linarith
  · rw [if_neg hc] at h
    simp at h

/-- Rule 10 only emits values above the optimal maximum 1.0. -/
theorem rule10_outside {pp : Option MovementPhase} {w : Weakness} (h : w ∈ rule10 pp) :
    w.detectedValue < w.optimalRange.min ∨ w.optimalRange.max < w.detectedValue := by
  rcases pp with _ | p
  · simp [rule10] at h
  simp only [rule10] at h
  by_cases hc : (12 / 10 : ℚ) < p.duration
  · rw [if_pos hc] at h
    rcases List.mem_singleton.mp h with rfl
    refine Or.inr ?_
    show (1 : ℚ) < p.duration
    linarith
  · rw [if_neg hc] at h
    simp at h

/-- Rule 11 only emits values below the optimal minimum 0.5. -/
theorem rule11_outside {ap : Option MovementPhase} {w : Weakness} (h : w ∈ rule11 ap) :
    w.detectedValue < w.optimalRange.min ∨ w.optimalRange.max < w.detectedValue := by
  rcases ap with _ | p
  · simp [rule11] at h
  simp only [rule11] at h
  by_cases hc : p.avgVelocity < (4 / 10 : ℚ)
  · rw [if_pos hc] at h
    rcases List.mem_singleton.mp h with rfl
    refine Or.inl ?_
    show p.avgVelocity < (5 / 10 : ℚ)
    linarith
  · rw [if_neg hc] at h
    simp at h

/-- Rule 12 only emits values below the optimal minimum 130. -/
theorem rule12_outside {metrics : KeyMetrics} {w : Weakness} (h : w ∈ rule12 metrics) :
    w.detectedValue < w.optimalRange.min ∨ w.optimalRange.max < w.detectedValue := by
  rcases hv : metrics.maxShoulderAngle with _ | sa
  · simp [rule12, hv] at h
  simp only [rule12, hv] at h
  by_cases hc : sa < 120
  · rw [if_pos hc] at h
    rcases List.mem_singleton.mp h with rfl
    refine Or.inl ?_
    show sa < (130 : ℚ)
    linarith
  · rw [if_neg hc] at h
    simp at h

/-- Every weakness any of the twelve rules pushes has its detected value
strictly outside its own optimal range. -/
theorem weaknessRules_outside {metrics : KeyMetrics} {phases : List MovementPhase}
    {keyMoments : List KeyMoment} {w : Weakness}
    (hw : w ∈ weaknessRules metrics phases keyMoments) :
    w.detectedValue < w.optimalRange.min ∨ w.optimalRange.max < w.detectedValue := by
  unfold weaknessRules at hw
  simp only [List.mem_append] at hw
  rcases hw with
    ((((((((((h | h) | h) | h) | h) | h) | h) | h) | h) | h) | h) | h
  · exact rule1_outside h
  · exact rule2_outside h
  · exact rule3_outside h
  · exact rule4_outside h
  · exact rule5_outside h
  · exact rule6_outside h
  · exact rule7_outside h
  · exact rule8_outside h
  · exact rule9_outside h
  · exact rule10_outside h
  · exact rule11_outside h
  · exact rule12_outside h

/-- C10: every weakness returned by `detectWeaknesses` has a detected value
strictly outside its own optimal range. -/
theorem detectWeaknesses_outside_optimal (metrics : KeyMetrics)
    (phases : List MovementPhase) (keyMoments : List KeyMoment) (w : Weakness)
    (hw : w ∈ detectWeaknesses metrics phases keyMoments) :
    w.detectedValue < w.optimalRange.min ∨ w.optimalRange.max < w.detectedValue := by
  rw [detectWeaknesses, List.mem_mergeSort] at hw
  exact weaknessRules_outside hw

/-- C10 (witness): the Low Hand Speed weakness emitted on all-neutral
metrics has detected value 0, strictly below its optimal minimum 0.8. -/
theorem detectWeaknesses_outside_optimal_witness :
    lowHandSpeedNeutral ∈ detectWeaknesses neutralKeyMetrics [] [] ∧
    (lowHandSpeedNeutral.detectedValue < lowHandSpeedNeutral.optimalRange.min ∨
      lowHandSpeedNeutral.optimalRange.max < lowHandSpeedNeutral.detectedValue) :=
  ⟨by decide!,
   detectWeaknesses_outside_optimal neutralKeyMetrics [] [] lowHandSpeedNeutral (by decide!)⟩

/-! ### Claim C7: ordering of the weakness list -/

/-- The severity-descending relation is transitive. -/
theorem severityDescLe_trans (a b c : Weakness) (hab : severityDescLe a b = true)
    (hbc : severityDescLe b c = true) : severityDescLe a c = true := by
  simp only [severityDescLe, decide_eq_true_eq] at hab hbc ⊢
  omega

/-- The severity-descending relation is total. -/
theorem severityDescLe_total (a b : Weakness) :
    (severityDescLe a b || severityDescLe b a) = true := by
  simp only [severityDescLe, Bool.or_eq_true, decide_eq_true_eq]
  omega

/-- C7: the list returned by `detectWeaknesses` is non-increasing in severity
rank, and within each severity class the elements are exactly those the rules
produced, in rule-evaluation order (stability of the sort). -/
theorem detectWeaknesses_sorted (metrics : KeyMetrics)
    (phases : List MovementPhase) (keyMoments : List KeyMoment) :
    List.Pairwise
      (fun a b : Weakness =>
        SEVERITY_PRIORITY b.severity ≤ SEVERITY_PRIORITY a.severity)
      (detectWeaknesses metrics phases keyMoments) ∧
    ∀ s : Severity,
      (detectWeaknesses metrics phases keyMoments).filter (fun w => w.severity == s) =
        (weaknessRules metrics phases keyMoments).filter (fun w => w.severity == s) := by
  constructor
  · rw [detectWeaknesses]
    have h := List.sorted_mergeSort severityDescLe_trans
      severityDescLe_total (weaknessRules metrics phases keyMoments)
    exact h.imp (fun hab => by simpa [severityDescLe] using hab)
  · intro s
    rw [detectWeaknesses]
    set l := weaknessRules metrics phases keyMoments with hl
    set p : Weakness → Bool := fun w => w.severity == s with hp
    have hpair : (l.filter p).Pairwise (fun a b => severityDescLe a b = true) := by
      apply List.pairwise_of_forall_mem_list
      intro a ha b hb
      have ha2 := (List.mem_filter.mp ha).2
      have hb2 := (List.mem_filter.mp hb).2
      simp only [hp, beq_iff_eq] at ha2 hb2
      simp [severityDescLe, ha2, hb2]
    have hsub : List.Sublist (l.filter p) (List.mergeSort l severityDescLe) :=
      List.sublist_mergeSort severityDescLe_trans severityDescLe_total hpair
        (List.filter_sublist l)
    have hsub2 : List.Sublist (l.filter p) ((List.mergeSort l severityDescLe).filter p) := by
      have h2 := hsub.filter p
      have h3 : (l.filter p).filter p = l.filter p := by
        rw [List.filter_filter]
        exact List.filter_congr (fun a _ => Bool.and_self (p a))
      rwa [h3] at h2
    have hlen : ((List.mergeSort l severityDescLe).filter p).length = (l.filter p).length :=
      (List.Perm.filter p (List.mergeSort_perm l severityDescLe)).length_eq
    exact (hsub2.eq_of_length hlen.symm).symm

/-- C7 (witness): the concrete output on all-neutral metrics is sorted. -/
theorem detectWeaknesses_sorted_witness :
    List.Pairwise
      (fun a b : Weakness =>
        SEVERITY_PRIORITY b.severity ≤ SEVERITY_PRIORITY a.severity)
      (detectWeaknesses neutralKeyMetrics [] []) :=
  (detectWeaknesses_sorted neutralKeyMetrics [] []).1

/-! ### Claim C5: recommendation count, drill caps and priorities -/

/-- Every drill selection has at most three entries (the final cap). -/
theorem selectDrillsForWeakness_le_three (w : Weakness) :
    (selectDrillsForWeakness w).length ≤ 3 := by
  have h : ∀ l : List Drill, (l.take 3).length ≤ 3 := by
    intro l
    simpa using List.length_take_le 3 l
  exact h _

/-- Behaviour of the indexed conditional-push loop: at most one
recommendation per weakness, each with one to three drills and priority
`start index + position + 1`. -/
theorem recommendationsAux_spec (i : ℕ) (ws : List Weakness) :
    (recommendationsAux i ws).length ≤ ws.length ∧
    ∀ r ∈ recommendationsAux i ws,
      (1 ≤ r.recommendedDrills.length ∧ r.recommendedDrills.length ≤ 3) ∧
      ∃ j : ℕ, j < ws.length ∧ ws[j]? = some r.weakness ∧
        r.priority = (i : ℤ) + j + 1 := by
  induction ws generalizing i with
  | nil => simp [recommendationsAux]
  | cons w ws ih =>
    obtain ⟨ihlen, ihmem⟩ := ih (i + 1)
    constructor
    · simp only [recommendationsAux, List.length_append, List.length_cons]
      by_cases hsel : 0 < (selectDrillsForWeakness w).length
      · rw [if_pos hsel]
        simp only [List.length_singleton]
        omega
      · rw [if_neg hsel]
        simp only [List.length_nil]
        omega
    · intro r hr
      simp only [recommendationsAux, List.mem_append] at hr
      rcases hr with hr | hr
      · by_cases hsel : 0 < (selectDrillsForWeakness w).length
        · rw [if_pos hsel] at hr
          rcases List.mem_singleton.mp hr with rfl
          exact ⟨⟨hsel, selectDrillsForWeakness_le_three w⟩,
            0, by simp, by simp, by simp⟩
        · rw [if_neg hsel] at hr
          simp at hr
      · obtain ⟨hdr, j, hj, hget, hpri⟩ := ihmem r hr
        refine ⟨hdr, j + 1, by simpa using hj, by simpa using hget, ?_⟩
        rw [hpri]
        push_cast
        ring

/-- C5: at most five recommendations are produced; each carries one to three
drills; and each recommendation's priority is one more than the index of its
weakness in the processed top-5 prefix of the severity-sorted input. -/
theorem generateDrillRecommendations_caps (weaknesses : List Weakness) :
    (generateDrillRecommendations weaknesses).length ≤ 5 ∧
    ∀ r ∈ generateDrillRecommendations weaknesses,
      (1 ≤ r.recommendedDrills.length ∧ r.recommendedDrills.length ≤ 3) ∧
      ∃ i : ℕ, i < 5 ∧ weaknesses[i]? = some r.weakness ∧
        r.priority = (i : ℤ) + 1 := by
  obtain ⟨hlen, hmem⟩ := recommendationsAux_spec 0 (weaknesses.take 5)
  constructor
  · refine le_trans hlen ?_
    simpa using List.length_take_le 5 weaknesses
  · intro r hr
    obtain ⟨hdr, j, hj, hget, hpri⟩ :=
      hmem r (by simpa [generateDrillRecommendations] using hr)
    have hj5 : j < 5 := by
      have := List.length_take_le 5 weaknesses
      omega
    refine ⟨hdr, j, hj5, ?_, by simpa using hpri⟩
    rw [List.getElem?_take] at hget
    simpa [hj5] using hget

/-- C5 (witness): the theorem applied to the concrete six-weakness list of
the specification's scenario — only the top five are processed. -/
theorem generateDrillRecommendations_caps_witness :
    (generateDrillRecommendations
      [lowHandSpeedNeutral, lowHandSpeedNeutral, lowHandSpeedNeutral,
       lowHandSpeedNeutral, lowHandSpeedNeutral, lowHandSpeedNeutral]).length ≤ 5 :=
  (generateDrillRecommendations_caps _).1

/-! ### Claim C6: the category fallback of the drill matcher -/

/-- A successful `lookupMap` means the key-value pair is one of the record's
entries. -/
theorem lookupMap_mem {m : List (String × List String)} {k : String}
    {v : List String} (h : lookupMap m k = some v) : (k, v) ∈ m := by
  unfold lookupMap at h
  rcases hf : m.find? (fun p => p.1 == k) with _ | pr
  · rw [hf] at h
    simp at h
  · rw [hf] at h
    simp only [Option.map_some', Option.some_inj] at h
    have hmem := List.mem_of_find?_eq_some hf
    have hkey := List.find?_some hf
    simp only [beq_iff_eq] at hkey
    have hpr : pr = (k, v) := by
      rcases pr with ⟨k0, v0⟩
      simp only at hkey h
      rw [hkey, h]
    rwa [hpr] at hmem

/-- With the fixed maps and catalog, the specific-drill stage yields either
nothing (unmapped issue) or exactly three drills (every mapped issue's first
three ids exist in the catalog). -/
theorem specificDrills_lookup_cases (issue : String) :
    specificDrills issue = [] ∨ (specificDrills issue).length = 3 := by
  rcases hlk : lookupMap WEAKNESS_TO_DRILL_MAP issue with _ | ids
  · left
    unfold specificDrills
    rw [hlk]
  · right
    have hbody : specificDrills issue =
        (ids.take 3).filterMap
          (fun drillId => DRILL_DATABASE.find? (fun d => d.id == drillId)) := by
      unfold specificDrills
      rw [hlk]
    rw [hbody]
    have hmem := lookupMap_mem hlk
    simp only [WEAKNESS_TO_DRILL_MAP, List.mem_cons, List.not_mem_nil, or_false,
      Prod.mk.injEq] at hmem
    rcases hmem with hm12 | hm12 | hm12 | hm12 | hm12 | hm12 |
        hm12 | hm12 | hm12 | hm12 | hm12 | hm12 <;>
      obtain ⟨-, rfl⟩ := hm12 <;> decide!

/-- Pushing the head of a possibly-empty list under a conjunction guard whose
other conjunct holds. -/
theorem if_guard_append_take {α : Type} (xs l : List α) (c : Prop) [Decidable c]
    (hc : c) :
    (if c ∧ 0 < l.length then xs ++ l.take 1 else xs) = xs ++ l.take 1 := by
  cases l with
  | nil => simp
  | cons a t => simp [hc]

/-- Variant of `if_guard_append_take` where the pushed element comes from a
filtered view of the guarded list. -/
theorem if_guard_append_take_filter {α : Type} (xs l : List α) (q : α → Bool)
    (c : Prop) [Decidable c] (hc : c) :
    (if c ∧ 0 < l.length then xs ++ (l.filter q).take 1 else xs) =
      xs ++ (l.filter q).take 1 := by
  cases l with
  | nil => simp
  | cons a t => simp [hc]

/-- C6 (amended): whenever the specific mapping yields fewer than three
drills, it in fact yields none (with the fixed maps, every mapped issue
resolves three drills), and the matcher falls back to category matching:
one beginner entry (taken only because nothing was chosen yet), then one
intermediate entry, then at most ONE further unused category match — not a
fill of all remaining slots, so the result can have two drills even when
more category matches remain. -/
theorem selectDrillsForWeakness_fallback (weakness : Weakness)
    (h : (specificDrills weakness.issue).length < 3) :
    specificDrills weakness.issue = [] ∧
    selectDrillsForWeakness weakness = categoryFallback weakness := by
  have hnil : specificDrills weakness.issue = [] := by
    rcases specificDrills_lookup_cases weakness.issue with h0 | h3
    · exact h0
    · omega
  refine ⟨hnil, ?_⟩
  rw [selectDrillsForWeakness, categoryFallback, hnil]
  simp only [List.length_nil, List.any_nil, Bool.not_false, Bool.and_true,
    List.nil_append]
  set cats := (lookupMap WEAKNESS_TO_CATEGORY_MAP weakness.issue).getD [weakness.category] with hcats
  set cd := DRILL_DATABASE.filter (fun drill => cats.contains drill.category) with hcd
  set b := cd.filter (fun d => d.difficulty == "beginner") with hb
  set i := cd.filter (fun d => d.difficulty == "intermediate") with hi
  rw [if_pos (by norm_num : (0 : ℕ) < 3)]
  have h1 : (if True ∧ 0 < b.length then b.take 1 else ([] : List Drill)) = b.take 1 := by
    cases b <;> simp
  rw [h1]
  have hlb : (b.take 1).length < 3 := by
    have := List.length_take_le 1 b
    omega
  have h2 : (if (b.take 1).length < 3 ∧ 0 < i.length then b.take 1 ++ i.take 1
      else b.take 1) = b.take 1 ++ i.take 1 := by
    cases i <;> simp [hlb]
  rw [h2]
  have hlbi : (b.take 1 ++ i.take 1).length < 3 := by
    have := List.length_take_le 1 b
    have := List.length_take_le 1 i
    simp only [List.length_append]
    omega
  have h3 : (if (b.take 1 ++ i.take 1).length < 3 ∧ 0 < cd.length then
        (b.take 1 ++ i.take 1) ++
          (cd.filter (fun d => !((b.take 1 ++ i.take 1).any (fun e => e.id == d.id)))).take 1
      else b.take 1 ++ i.take 1) =
      (b.take 1 ++ i.take 1) ++
        (cd.filter (fun d => !((b.take 1 ++ i.take 1).any (fun e => e.id == d.id)))).take 1 := by
    by_cases hc : 0 < cd.length
    · rw [if_pos ⟨hlbi, hc⟩]
    · rw [if_neg (by tauto)]
      have hcd0 : cd = [] := List.length_eq_zero.mp (by omega)
      simp [hcd0]
  rw [h3]
  apply List.take_of_length_le
  have := List.length_take_le 1
    (cd.filter (fun d => !((b.take 1 ++ i.take 1).any (fun e => e.id == d.id))))
  have := List.length_take_le 1 b
  have := List.length_take_le 1 i
  simp only [List.length_append]
  omega


/-- C6 (counterexample): for a weakness with an unmapped issue and category
Power Generation (no beginner drill in that category), the matcher stops at
two drills, while the fallback described by the claim — filling the
remaining slots with unused category matches — would return three; the two
results differ. -/
theorem selectDrillsForWeakness_fallback_refuted :
    (specificDrills unmappedPowerWeakness.issue).length < 3 ∧
    (selectDrillsForWeakness unmappedPowerWeakness).map Drill.id =
      ["hip_rotation_throws", "approach_jumps"] ∧
    (selectDrillsClaimed unmappedPowerWeakness).map Drill.id =
      ["hip_rotation_throws", "approach_jumps", "box_jumps"] ∧
    selectDrillsForWeakness unmappedPowerWeakness ≠
      selectDrillsClaimed unmappedPowerWeakness := by
  decide!

/-- C6 (witness): the amended theorem applied to the unmapped
Power-Generation weakness. -/
theorem selectDrillsForWeakness_fallback_witness :
    specificDrills unmappedPowerWeakness.issue = [] ∧
    selectDrillsForWeakness unmappedPowerWeakness =
      categoryFallback unmappedPowerWeakness :=
  selectDrillsForWeakness_fallback unmappedPowerWeakness (by decide!)

/-! ### Claim C2: small-input behaviour of the report pipeline -/

/-- The phase segmenter returns no phases when the velocity timeline is
empty. -/
theorem detectMovementPhases_nil_velocity (frames : List FrameData)
    (keyMoments : List KeyMoment) :
    detectMovementPhases frames [] keyMoments = [] := by
  unfold detectMovementPhases
  rcases hh : frames.head? with _ | f <;> rcases hl : frames.getLast? with _ | l <;> rfl

/-- C2 (amended): a frame list of length 0 or 1 yields a report, without
failure, whose velocity timeline, key-moment list and phase list are empty;
for an empty frame list the `KeyMetrics` are all neutral — but the weakness
list derived from those neutral metrics is NOT empty: rules 4 (Limited Arm
Extension Range) and 5 (Low Hand Speed) fire on the neutral values, in that
order (both high severity).  (For a single frame with sufficiently visible
landmarks the angle/extension metrics are moreover not all neutral, see the
counterexample.) -/
theorem generateMovementReport_small_input (P : MathPrims)
    (analysis : AnalysisResult) (options : AnalysisOptions)
    (h : analysis.frames.length ≤ 1) :
    (generateMovementReport P analysis options).velocities = [] ∧
    (generateMovementReport P analysis options).keyMoments = [] ∧
    (generateMovementReport P analysis options).phases = [] ∧
    (analysis.frames = [] →
      (generateMovementReport P analysis options).keyMetrics = neutralKeyMetrics ∧
      (generateMovementReport P analysis options).weaknesses.map Weakness.issue =
        ["Limited Arm Extension Range", "Low Hand Speed"]) := by
  obtain ⟨vfn, pat, vi, kpf, frames⟩ := analysis
  simp only at h
  rcases frames with _ | ⟨f, rest⟩
  · refine ⟨rfl, rfl, ?_, fun _ => ⟨rfl, ?_⟩⟩
    · simp only [generateMovementReport]
      exact detectMovementPhases_nil_velocity _ _
    · simp only [generateMovementReport]
      have hkm : calculateKeyMetrics P [] (calculateVelocityTimeline P [] (mergeOptions options))
          (calculateAngleTimeline P [] (mergeOptions options)) = neutralKeyMetrics := rfl
      rw [hkm]
      have hvel : calculateVelocityTimeline P [] (mergeOptions options) = [] := rfl
      rw [hvel]
      have hmom : detectKeyMoments P [] []
          (calculateAngleTimeline P [] (mergeOptions options)) = [] := rfl
      rw [hmom]
      decide!
  · rcases rest with _ | ⟨g, rest2⟩
    · refine ⟨rfl, rfl, ?_, fun hfalse => absurd hfalse (by simp)⟩
      simp only [generateMovementReport]
      exact detectMovementPhases_nil_velocity _ _
    · simp at h

/-- C2 (counterexample): at the empty frame list the report's weakness list
is not empty (rules 4 and 5 fire on the neutral metrics), and at a
one-frame list with visible landmarks the angle metrics are not all neutral
(`maxElbowAngle` is non-null) — refuting both the empty-weakness-list and
the all-neutral-metrics parts of the claim. -/
theorem generateMovementReport_small_input_refuted :
    (generateMovementReport trivPrims emptyAnalysis ⟨none, none, none⟩).weaknesses ≠ [] ∧
    (generateMovementReport trivPrims oneFrameAnalysis
      ⟨none, none, none⟩).keyMetrics.maxElbowAngle ≠ none := by
  constructor <;> decide!

/-- C2 (witness): the amended theorem applied to the empty analysis. -/
theorem generateMovementReport_small_input_witness :
    (generateMovementReport trivPrims emptyAnalysis ⟨none, none, none⟩).phases = [] ∧
    (generateMovementReport trivPrims emptyAnalysis
      ⟨none, none, none⟩).weaknesses.map Weakness.issue =
      ["Limited Arm Extension Range", "Low Hand Speed"] :=
  ⟨(generateMovementReport_small_input trivPrims emptyAnalysis ⟨none, none, none⟩
      (by decide!)).2.2.1,
   ((generateMovementReport_small_input trivPrims emptyAnalysis ⟨none, none, none⟩
      (by decide!)).2.2.2 rfl).2⟩

/-! ### Claim C4: omission of key moments -/

/-- The highest-body-position scan returns nothing exactly when it started
empty and no frame has a computable center of mass. -/
theorem highestScan_none_iff (frames : List FrameData)
    (acc : Option (ℚ × FrameData)) :
    frames.foldl highestPositionStep acc = none ↔
      acc = none ∧ ∀ f ∈ frames, calculateBodyCenterOfMass f.keypoints = none := by
  induction frames generalizing acc with
  | nil => simp
  | cons f fs ih =>
    rw [List.foldl_cons, ih]
    constructor
    · rintro ⟨hstep, hall⟩
      have hacc : acc = none ∧ calculateBodyCenterOfMass f.keypoints = none := by
        rcases hcom : calculateBodyCenterOfMass f.keypoints with _ | com
        · refine ⟨?_, rfl⟩
          simpa only [highestPositionStep, hcom] using hstep
        · exfalso
          rcases acc with _ | best
          · simp only [highestPositionStep, hcom] at hstep
            exact Option.noConfusion hstep
          · simp only [highestPositionStep, hcom] at hstep
            split at hstep <;> exact Option.noConfusion hstep
      refine ⟨hacc.1, fun g hg => ?_⟩
      rcases List.mem_cons.mp hg with rfl | hg2
      · exact hacc.2
      · exact hall g hg2
    · rintro ⟨hacc, hall⟩
      subst hacc
      have hcf : calculateBodyCenterOfMass f.keypoints = none :=
        hall f (List.mem_cons_self f fs)
      refine ⟨?_, fun g hg => hall g (List.mem_cons_of_mem f hg)⟩
      simp only [highestPositionStep, hcf]

/-- C4 (amended): key moments are NOT omitted individually.  Whenever the
velocity timeline or the frame list is empty, `detectKeyMoments` omits ALL
moments (returns `[]`) — in particular Maximum Extension and Peak Height do
require a non-empty velocity timeline.  When both inputs are non-empty, the
Peak Height moment is present exactly when some frame has a computable
center of mass; detection never fails hard. -/
theorem detectKeyMoments_moment_gates (P : MathPrims) (frames : List FrameData)
    (velocityData : List VelocityDataPoint) (angleData : List AngleDataPoint) :
    (velocityData = [] ∨ frames = [] →
      detectKeyMoments P frames velocityData angleData = []) ∧
    (velocityData ≠ [] → frames ≠ [] →
      ((∃ f ∈ frames, (calculateBodyCenterOfMass f.keypoints).isSome) ↔
        ∃ m ∈ detectKeyMoments P frames velocityData angleData,
          m.label = "Peak Height")) := by
  constructor
  · rintro (rfl | rfl)
    · cases frames with
      | nil => rfl
      | cons f fs => rfl
    · cases velocityData with
      | nil => rfl
      | cons v vs => rfl
  · intro hvd hfr
    rcases velocityData with _ | ⟨v0, vrest⟩
    · exact absurd rfl hvd
    rcases frames with _ | ⟨f0, frest⟩
    · exact absurd rfl hfr
    simp only [detectKeyMoments]
    constructor
    · rintro ⟨f, hf, hcom⟩
      have hne : (f0 :: frest).foldl highestPositionStep none ≠ none := by
        intro hcontra
        rw [highestScan_none_iff] at hcontra
        rcases hcontra with ⟨-, hall⟩
        rw [hall f hf] at hcom
        simp at hcom
      rcases hht : (f0 :: frest).foldl highestPositionStep none with _ | best
      · exact absurd hht hne
      refine ⟨⟨best.2.frame_number, best.2.timestamp, "Peak Height",
        ⟨none, none, none, none, some best.1⟩⟩, ?_, rfl⟩
      rw [List.mem_mergeSort]
      simp [List.mem_append]
    · rintro ⟨m, hm, hlabel⟩
      rw [List.mem_mergeSort] at hm
      simp only [List.mem_append] at hm
      rcases hm with (hm | hm) | hm
      · exfalso
        rcases hfind : (f0 :: frest).find?
            (fun f => f.frame_number == (vrest.foldl peakVelocityStep v0).frame) with _ | pf <;>
          rw [hfind] at hm
        · simp at hm
        · rcases List.mem_singleton.mp hm with rfl
          simp at hlabel
      · exfalso
        rcases hscan : ((f0 :: frest).foldl (maxExtensionStep P) (0, none)).2 with _ | mf <;>
          rw [hscan] at hm
        · simp at hm
        · rcases List.mem_singleton.mp hm with rfl
          simp at hlabel
      · rcases hht : (f0 :: frest).foldl highestPositionStep none with _ | best
        · rw [hht] at hm
          exact absurd hm (by simp)
        · by_contra hno
          push_neg at hno
          have hallnone : ∀ f ∈ f0 :: frest, calculateBodyCenterOfMass f.keypoints = none := by
            intro f hf
            have := hno f hf
            rcases hcf : calculateBodyCenterOfMass f.keypoints with _ | c
            · rfl
            · rw [hcf] at this
              simp at this
          have : (f0 :: frest).foldl highestPositionStep none = none :=
            (highestScan_none_iff _ _).mpr ⟨rfl, hallnone⟩
          rw [this] at hht
          exact Option.noConfusion hht

/-- C4 (counterexample): a frame whose keypoints give a defined (non-null)
right-arm extension — the Maximum Extension source data is non-empty — still
produces NO key moments when the velocity timeline is empty, refuting the
per-moment omission the claim describes. -/
theorem detectKeyMoments_individual_omission_refuted :
    (calculateRightArmExtension trivPrims armOnlyFrame.keypoints).isSome = true ∧
    detectKeyMoments trivPrims [armOnlyFrame] [] [] = [] := by
  constructor
  · decide!
  · rfl

/-- C4 (witness): the amended theorem applied at a concrete input with an
empty velocity timeline. -/
theorem detectKeyMoments_moment_gates_witness :
    detectKeyMoments trivPrims [armOnlyFrame] [] [] = [] :=
  (detectKeyMoments_moment_gates trivPrims [armOnlyFrame] [] []).1 (Or.inl rfl)

/-! ### Claim C8: NaN behaviour of the angle primitive -/

/-- A zero self-dot-product means all three components vanish. -/
theorem vDot_self_zero_components {v : Vector3D} (h : vDot v v = 0) :
    v.x = 0 ∧ v.y = 0 ∧ v.z = 0 := by
  unfold vDot at h
  have hx : v.x * v.x = 0 := by
    nlinarith [mul_self_nonneg v.x, mul_self_nonneg v.y, mul_self_nonneg v.z]
  have hy : v.y * v.y = 0 := by
    nlinarith [mul_self_nonneg v.x, mul_self_nonneg v.y, mul_self_nonneg v.z]
  have hz : v.z * v.z = 0 := by
    nlinarith [mul_self_nonneg v.x, mul_self_nonneg v.y, mul_self_nonneg v.z]
  exact ⟨mul_self_eq_zero.mp hx, mul_self_eq_zero.mp hy, mul_self_eq_zero.mp hz⟩

/-- A nonzero self-dot-product is positive. -/
theorem vDot_self_pos {v : Vector3D} (h : vDot v v ≠ 0) : 0 < vDot v v := by
  rcases lt_or_eq_of_le
      (by
        unfold vDot
        have := add_nonneg (add_nonneg (mul_self_nonneg v.x) (mul_self_nonneg v.y))
          (mul_self_nonneg v.z)
        exact this : (0 : ℚ) ≤ vDot v v) with h1 | h1
  · exact h1
  · exact absurd h1.symm h

/-- C8 (amended): `calculateAngle` has no null guard.  On an input whose
`vertex→point1` or `vertex→point2` vector has zero magnitude, the JS
evaluation produces NaN (from `0/0`; the clamp does not intercept it) — not
`null`.  For every other input (given that `Math.sqrt` maps 0 to 0 and
positives to positives), the clamp of the cosine to `[-1, 1]` guarantees a
well-defined finite result. -/
theorem calculateAngle_nan_or_wellDefined (P : MathPrims)
    (h0 : P.sqrt 0 = 0) (hpos : ∀ q : ℚ, 0 < q → 0 < P.sqrt q)
    (point1 vertex point2 : Keypoint) :
    (vDot (vSub point1 vertex) (vSub point1 vertex) = 0 ∨
        vDot (vSub point2 vertex) (vSub point2 vertex) = 0 →
      calculateAngle P point1 vertex point2 = JsNum.nan) ∧
    (vDot (vSub point1 vertex) (vSub point1 vertex) ≠ 0 →
        vDot (vSub point2 vertex) (vSub point2 vertex) ≠ 0 →
      ∃ x : ℚ, -1 ≤ x ∧ x ≤ 1 ∧
        calculateAngle P point1 vertex point2 =
          JsNum.num (P.acos x * 180 / jsPI)) := by
  constructor
  · intro hdeg
    simp only [calculateAngle]
    rcases hdeg with h1 | h2
    · have h1c := vDot_self_zero_components h1
      have hdot : vDot (vSub point1 vertex) (vSub point2 vertex) = 0 := by
        unfold vDot
        rw [h1c.1, h1c.2.1, h1c.2.2]
        ring
      rw [hdot, h1, h0, zero_mul]
      simp [jsDiv, jsMinOne, jsMaxNegOne, jsAcos, jsToDegrees]
    · have h2c := vDot_self_zero_components h2
      have hdot : vDot (vSub point1 vertex) (vSub point2 vertex) = 0 := by
        unfold vDot
        rw [h2c.1, h2c.2.1, h2c.2.2]
        ring
      rw [hdot, h2, h0, mul_zero]
      simp [jsDiv, jsMinOne, jsMaxNegOne, jsAcos, jsToDegrees]
  · intro h1 h2
    have hq1 := vDot_self_pos h1
    have hq2 := vDot_self_pos h2
    have hm : 0 < P.sqrt (vDot (vSub point1 vertex) (vSub point1 vertex)) *
        P.sqrt (vDot (vSub point2 vertex) (vSub point2 vertex)) :=
      mul_pos (hpos _ hq1) (hpos _ hq2)
    simp only [calculateAngle]
    set c := vDot (vSub point1 vertex) (vSub point2 vertex) /
      (P.sqrt (vDot (vSub point1 vertex) (vSub point1 vertex)) *
       P.sqrt (vDot (vSub point2 vertex) (vSub point2 vertex))) with hc
    refine ⟨max (-1) (min 1 c), le_max_left _ _,
      max_le (by norm_num) (min_le_left 1 c), ?_⟩
    unfold jsDiv
    rw [if_neg (ne_of_gt hm)]
    simp only [jsMinOne, jsMaxNegOne, jsAcos]
    rw [if_neg ?hclamp]
    case hclamp =>
      rw [not_or]
      constructor
      · exact not_lt.mpr (le_max_left _ _)
      · exact not_lt.mpr (max_le (by norm_num) (min_le_left 1 c))
    simp only [jsToDegrees]

/-- C8 (counterexample): at a concrete coincident input (`point1 = vertex`)
the function evaluates to NaN — it does not return `null` (there is no null
branch in the function at all), refuting the claimed guard. -/
theorem calculateAngle_nan_refuted :
    calculateAngle trivPrims kpUnitX kpUnitX kpUnitY = JsNum.nan := by
  decide!

/-- C8 (witness): the amended theorem applied at concrete degenerate and
non-degenerate inputs (with the identity standing in for `Math.sqrt`, which
satisfies the two stated properties). -/
theorem calculateAngle_nan_or_wellDefined_witness :
    calculateAngle trivPrims kpOrigin kpOrigin kpUnitY = JsNum.nan ∧
    ∃ x : ℚ, -1 ≤ x ∧ x ≤ 1 ∧
      calculateAngle trivPrims kpUnitX kpOrigin kpUnitY =
        JsNum.num (trivPrims.acos x * 180 / jsPI) :=
  ⟨(calculateAngle_nan_or_wellDefined trivPrims rfl (fun _ h => h)
      kpOrigin kpOrigin kpUnitY).1 (Or.inl (by decide!)),
   (calculateAngle_nan_or_wellDefined trivPrims rfl (fun _ h => h)
      kpUnitX kpOrigin kpUnitY).2 (by decide!) (by decide!)⟩

/-! ### Claim C3: phase partition of the frame range -/

/-- Membership in an integer interval list. -/
theorem mem_intRange {x a b : ℤ} : x ∈ intRange a b ↔ a ≤ x ∧ x ≤ b := by
  unfold intRange
  simp only [List.mem_map, List.mem_range]
  constructor
  · rintro ⟨i, hi, rfl⟩
    omega
  · rintro ⟨h1, h2⟩
    exact ⟨(x - a).toNat, by omega, by omega⟩

/-- An integer interval list is empty exactly when its bounds cross. -/
theorem intRange_eq_nil_iff {a b : ℤ} : intRange a b = [] ↔ b < a := by
  unfold intRange
  simp only [List.map_eq_nil_iff, List.range_eq_nil]
  omega

/-- Unfolding an integer interval list from the left. -/
theorem intRange_cons {a b : ℤ} (h : a ≤ b) :
    intRange a b = a :: intRange (a + 1) b := by
  unfold intRange
  have hn : (b + 1 - a).toNat = (b + 1 - (a + 1)).toNat + 1 := by omega
  rw [hn, List.range_succ_eq_map, List.map_cons, List.map_map]
  refine congrArg₂ _ (by simp) ?_
  apply List.map_congr_left
  intro i _
  simp only [Function.comp_apply]
  push_cast
  ring

/-- Splitting an integer interval list at an interior point. -/
theorem intRange_append {a b c : ℤ} (h1 : a ≤ b + 1) (h2 : b ≤ c) :
    intRange a b ++ intRange (b + 1) c = intRange a c := by
  unfold intRange
  have hn : (c + 1 - a).toNat = (b + 1 - a).toNat + (c - b).toNat := by omega
  rw [hn, List.range_add, List.map_append, List.map_map]
  refine congrArg₂ _ rfl ?_
  have hm : (c + 1 - (b + 1)).toNat = (c - b).toNat := by omega
  rw [hm]
  apply List.map_congr_left
  intro i _
  simp only [Function.comp_apply]
  push_cast
  omega

/-- The last entry of a non-empty integer interval list is its upper bound. -/
theorem intRange_getLast? {a b : ℤ} (h : a ≤ b) :
    (intRange a b).getLast? = some b := by
  unfold intRange
  have hn : (b + 1 - a).toNat = (b - a).toNat + 1 := by omega
  rw [hn, List.range_succ, List.map_append, List.map_singleton, List.getLast?_concat]
  refine congrArg _ ?_
  omega

/-- The preparation boundary lies between the range start and the anchor. -/
theorem prepEndFrameOf_bounds {s p : ℤ} (h : s ≤ p) :
    s ≤ prepEndFrameOf s p ∧ prepEndFrameOf s p ≤ p := by
  have hsp : (s : ℚ) ≤ (p : ℚ) := by exact_mod_cast h
  unfold prepEndFrameOf
  constructor
  · apply Int.le_floor.mpr
    push_cast
    linarith
  · have hle : ((p : ℚ) - ((p : ℚ) - (s : ℚ)) * (3 / 10 : ℚ)) ≤ (p : ℚ) := by linarith
    have hf := Int.floor_le_floor hle
    rwa [Int.floor_intCast] at hf

/-- The contact boundary lies between the anchor and the range end. -/
theorem contactEndFrameOf_bounds {p e : ℤ} (h : p ≤ e) :
    p ≤ contactEndFrameOf p e ∧ contactEndFrameOf p e ≤ e := by
  have hpe : (p : ℚ) ≤ (e : ℚ) := by exact_mod_cast h
  unfold contactEndFrameOf
  constructor
  · apply le_min
    · apply Int.le_floor.mpr
      push_cast
      linarith
    · exact h
  · exact min_le_right _ _

/-- A phase block is either dropped (empty frame subset) or a singleton
carrying exactly the requested bounds. -/
theorem mkPhase_shape (name : String) (a b : ℤ) (vd : List VelocityDataPoint)
    (frames : List FrameData) :
    (frames.filter (fun f => a ≤ f.frame_number ∧ f.frame_number ≤ b) = [] ∧
      mkPhase name a b vd frames = []) ∨
    (frames.filter (fun f => a ≤ f.frame_number ∧ f.frame_number ≤ b) ≠ [] ∧
      ∃ d av mv, mkPhase name a b vd frames = [⟨name, a, b, d, av, mv⟩]) := by
  simp only [mkPhase]
  rcases hfs : frames.filter (fun f => a ≤ f.frame_number ∧ f.frame_number ≤ b)
    with _ | ⟨f0, fs2⟩
  · left
    rw [hfs]
    exact ⟨rfl, rfl⟩
  · right
    rw [hfs]
    refine ⟨by simp, ?_⟩
    rcases hl : (f0 :: fs2).getLast? with _ | fl
    · rw [List.getLast?_eq_none_iff] at hl
      exact absurd hl (by simp)
    · exact ⟨_, _, _, rfl⟩

/-- Over consecutively numbered frames covering `[s, e]`, a phase block with
bounds inside `[s, e]` is emitted exactly when its integer range is
non-empty. -/
theorem mkPhase_emit (name : String) (a b s e : ℤ) (vd : List VelocityDataPoint)
    (frames : List FrameData)
    (hnum : frames.map FrameData.frame_number = intRange s e)
    (hsa : s ≤ a) (hbe : b ≤ e) :
    (b < a → mkPhase name a b vd frames = []) ∧
    (a ≤ b → ∃ d av mv, mkPhase name a b vd frames = [⟨name, a, b, d, av, mv⟩]) := by
  rcases mkPhase_shape name a b vd frames with ⟨hfil, hnil⟩ | ⟨hfil, hex⟩
  · refine ⟨fun _ => hnil, fun hab => absurd hfil ?_⟩
    have ha : a ∈ frames.map FrameData.frame_number := by
      rw [hnum, mem_intRange]
      omega
    obtain ⟨f, hf, hfa⟩ := List.mem_map.mp ha
    have hmem : f ∈ frames.filter (fun f => a ≤ f.frame_number ∧ f.frame_number ≤ b) := by
      rw [List.mem_filter]
      refine ⟨hf, ?_⟩
      simp only [hfa, decide_eq_true_eq]
      omega
    intro hcontra
    rw [hcontra] at hmem
    exact absurd hmem (by simp)
  · refine ⟨fun hba => absurd ?_ hfil, fun _ => hex⟩
    rw [List.filter_eq_nil_iff]
    intro f hf
    simp only [decide_eq_true_eq]
    omega

/-- The four-block decomposition of `detectMovementPhases` on a non-empty
frame list and velocity timeline. -/
theorem detectMovementPhases_eq (frames : List FrameData)
    (vd : List VelocityDataPoint) (km : List KeyMoment) (f0 lf : FrameData)
    (hh : frames.head? = some f0) (hl : frames.getLast? = some lf)
    (hvd : vd ≠ []) :
    detectMovementPhases frames vd km =
      mkPhase "Preparation" f0.frame_number
          (prepEndFrameOf f0.frame_number (phaseAnchor vd km)) vd frames
        ++ mkPhase "Acceleration"
          (prepEndFrameOf f0.frame_number (phaseAnchor vd km) + 1)
          (phaseAnchor vd km) vd frames
        ++ mkPhase "Contact" (phaseAnchor vd km + 1)
          (contactEndFrameOf (phaseAnchor vd km) lf.frame_number) vd frames
        ++ mkPhase "Follow-through"
          (contactEndFrameOf (phaseAnchor vd km) lf.frame_number + 1)
          lf.frame_number vd frames := by
  unfold detectMovementPhases
  rw [hh, hl]
  rcases vd with _ | ⟨v, vs⟩
  · exact absurd rfl hvd
  · rfl

/-- C3 (amended): over consecutively numbered frames covering `[s, e]` with
at least 4 frames, a non-empty velocity timeline and the phase anchor inside
the range, `detectMovementPhases` emits a non-empty run of phases, each with
`startFrame ≤ endFrame`, whose frame ranges are contiguous
(`endFrame + 1` equals the next `startFrame`) and together partition
`[s, e]`.  The amendment: a phase whose frame range would be empty — such as
Contact whenever the contact boundary
`min(⌊anchor + 0.4 * (e - anchor)⌋, e)` collapses onto the anchor — is
dropped rather than emitted, so not all four names need appear; which
phases drop depends on where the anchor sits in the range. -/
theorem detectMovementPhases_partition (frames : List FrameData)
    (vd : List VelocityDataPoint) (km : List KeyMoment) (s e : ℤ)
    (hlen : 4 ≤ frames.length) (hvd : vd ≠ [])
    (hnum : frames.map FrameData.frame_number = intRange s e)
    (hs : s ≤ phaseAnchor vd km) (he : phaseAnchor vd km ≤ e) :
    detectMovementPhases frames vd km ≠ [] ∧
    (∀ ph ∈ detectMovementPhases frames vd km, ph.startFrame ≤ ph.endFrame) ∧
    ((detectMovementPhases frames vd km).map
      (fun ph => intRange ph.startFrame ph.endFrame)).flatten = intRange s e ∧
    List.Chain' (fun ph qh => ph.endFrame + 1 = qh.startFrame)
      (detectMovementPhases frames vd km) := by
  have hse : s + 3 ≤ e := by
    have hL := congrArg List.length hnum
    rw [List.length_map] at hL
    unfold intRange at hL
    rw [List.length_map, List.length_range] at hL
    omega
  have hhead' : (frames.map FrameData.frame_number).head? = some s := by
    rw [hnum, intRange_cons (show s ≤ e by omega)]
    rfl
  have hlast' : (frames.map FrameData.frame_number).getLast? = some e := by
    rw [hnum]
    exact intRange_getLast? (by omega)
  rw [List.head?_map] at hhead'
  rw [List.getLast?_map] at hlast'
  rcases hh : frames.head? with _ | f0
  · rw [hh] at hhead'
    exact absurd hhead' (by simp)
  rcases hl : frames.getLast? with _ | lf
  · rw [hl] at hlast'
    exact absurd hlast' (by simp)
  rw [hh] at hhead'
  rw [hl] at hlast'
  have hf0 : f0.frame_number = s := by simpa using hhead'
  have hlf : lf.frame_number = e := by simpa using hlast'
  obtain ⟨hsa1, ha1p⟩ := prepEndFrameOf_bounds hs
  obtain ⟨hpa2, ha2e⟩ := contactEndFrameOf_bounds he
  rw [detectMovementPhases_eq frames vd km f0 lf hh hl hvd, hf0, hlf]
  set p := phaseAnchor vd km with hpdef
  set a1 := prepEndFrameOf s p with ha1def
  set a2 := contactEndFrameOf p e with ha2def
  obtain ⟨d1, v1, m1, hPrep⟩ :=
    (mkPhase_emit "Preparation" s a1 s e vd frames hnum le_rfl (le_trans ha1p he)).2 hsa1
  have hAcc := mkPhase_emit "Acceleration" (a1 + 1) p s e vd frames hnum (by omega) he
  have hCon := mkPhase_emit "Contact" (p + 1) a2 s e vd frames hnum (by omega) ha2e
  have hFol := mkPhase_emit "Follow-through" (a2 + 1) e s e vd frames hnum (by omega) le_rfl
  rw [hPrep]
  by_cases hA : a1 + 1 ≤ p
  · obtain ⟨d2, v2, m2, hAccEq⟩ := hAcc.2 hA
    rw [hAccEq]
    by_cases hC : p + 1 ≤ a2
    · obtain ⟨d3, v3, m3, hConEq⟩ := hCon.2 hC
      rw [hConEq]
      by_cases hF : a2 + 1 ≤ e
      · obtain ⟨d4, v4, m4, hFolEq⟩ := hFol.2 hF
        rw [hFolEq]
        refine ⟨by simp, ?_, ?_, ?_⟩
        · intro ph hph
          simp only [List.mem_append, List.mem_singleton] at hph
          rcases hph with ((rfl | rfl) | rfl) | rfl <;> dsimp only <;> omega
        · simp only [List.map_append, List.map_cons, List.map_nil,
            List.flatten_append, List.flatten_cons, List.flatten_nil, List.append_nil]
          rw [intRange_append (show s ≤ a1 + 1 by omega) (show a1 ≤ p by omega),
            intRange_append (show s ≤ p + 1 by omega) (show p ≤ a2 by omega),
            intRange_append (show s ≤ a2 + 1 by omega) (show a2 ≤ e by omega)]
        · simp only [List.cons_append, List.nil_append, List.chain'_cons,
            List.chain'_singleton, and_true]
      · have hfe : a2 = e := by omega
        rw [hFol.1 (by omega), hfe]
        refine ⟨by simp, ?_, ?_, ?_⟩
        · intro ph hph
          simp only [List.append_nil, List.mem_append, List.mem_singleton] at hph
          rcases hph with (rfl | rfl) | rfl <;> dsimp only <;> omega
        · simp only [List.append_nil, List.map_append, List.map_cons, List.map_nil,
            List.flatten_append, List.flatten_cons, List.flatten_nil]
          rw [intRange_append (show s ≤ a1 + 1 by omega) (show a1 ≤ p by omega),
            intRange_append (show s ≤ p + 1 by omega) (show p ≤ e by omega)]
        · simp only [List.append_nil, List.cons_append, List.nil_append,
            List.chain'_cons, List.chain'_singleton, and_true]
    · have hce : a2 = p := by omega
      by_cases hF : a2 + 1 ≤ e
      · obtain ⟨d4, v4, m4, hFolEq⟩ := hFol.2 hF
        rw [hCon.1 (by omega), hFolEq, hce]
        refine ⟨by simp, ?_, ?_, ?_⟩
        · intro ph hph
          simp only [List.append_nil, List.mem_append, List.mem_singleton] at hph
          rcases hph with (rfl | rfl) | rfl <;> dsimp only <;> omega
        · simp only [List.append_nil, List.map_append, List.map_cons, List.map_nil,
            List.flatten_append, List.flatten_cons, List.flatten_nil]
          rw [intRange_append (show s ≤ a1 + 1 by omega) (show a1 ≤ p by omega),
            intRange_append (show s ≤ p + 1 by omega) (show p ≤ e by omega)]
        · simp only [List.append_nil, List.cons_append, List.nil_append,
            List.chain'_cons, List.chain'_singleton, and_true]
      · have hfe : a2 = e := by omega
        have hpe : p = e := by omega
        rw [hCon.1 (by omega), hFol.1 (by omega), hpe]
        refine ⟨by simp, ?_, ?_, ?_⟩
        · intro ph hph
          simp only [List.append_nil, List.mem_append, List.mem_singleton] at hph
          rcases hph with rfl | rfl <;> dsimp only <;> omega
        · simp only [List.append_nil, List.map_append, List.map_cons, List.map_nil,
            List.flatten_append, List.flatten_cons, List.flatten_nil]
          rw [intRange_append (show s ≤ a1 + 1 by omega) (show a1 ≤ e by omega)]
        · simp only [List.append_nil, List.cons_append, List.nil_append,
            List.chain'_cons, List.chain'_singleton, and_true]
  · have hae : a1 = p := by omega
    by_cases hC : p + 1 ≤ a2
    · obtain ⟨d3, v3, m3, hConEq⟩ := hCon.2 hC
      by_cases hF : a2 + 1 ≤ e
      · obtain ⟨d4, v4, m4, hFolEq⟩ := hFol.2 hF
        rw [hAcc.1 (by omega), hConEq, hFolEq, hae]
        refine ⟨by simp, ?_, ?_, ?_⟩
        · intro ph hph
          simp only [List.append_nil, List.nil_append, List.mem_append,
            List.mem_singleton] at hph
          rcases hph with (rfl | rfl) | rfl <;> dsimp only <;> omega
        · simp only [List.append_nil, List.nil_append, List.map_append, List.map_cons,
            List.map_nil, List.flatten_append, List.flatten_cons, List.flatten_nil]
          rw [intRange_append (show s ≤ p + 1 by omega) (show p ≤ a2 by omega),
            intRange_append (show s ≤ a2 + 1 by omega) (show a2 ≤ e by omega)]
        · simp only [List.append_nil, List.nil_append, List.cons_append,
            List.chain'_cons, List.chain'_singleton, and_true]
      · have hfe : a2 = e := by omega
        rw [hAcc.1 (by omega), hConEq, hFol.1 (by omega), hae, hfe]
        refine ⟨by simp, ?_, ?_, ?_⟩
        · intro ph hph
          simp only [List.append_nil, List.nil_append, List.mem_append,
            List.mem_singleton] at hph
          rcases hph with rfl | rfl <;> dsimp only <;> omega
        · simp only [List.append_nil, List.nil_append, List.map_append, List.map_cons,
            List.map_nil, List.flatten_append, List.flatten_cons, List.flatten_nil]
          rw [intRange_append (show s ≤ p + 1 by omega) (show p ≤ e by omega)]
        · simp only [List.append_nil, List.nil_append, List.cons_append,
            List.chain'_cons, List.chain'_singleton, and_true]
    · have hce : a2 = p := by omega
      by_cases hF : a2 + 1 ≤ e
      · obtain ⟨d4, v4, m4, hFolEq⟩ := hFol.2 hF
        rw [hAcc.1 (by omega), hCon.1 (by omega), hFolEq, hae, hce]
        refine ⟨by simp, ?_, ?_, ?_⟩
        · intro ph hph
          simp only [List.append_nil, List.nil_append, List.mem_append,
            List.mem_singleton] at hph
          rcases hph with rfl | rfl <;> dsimp only <;> omega
        · simp only [List.append_nil, List.nil_append, List.map_append, List.map_cons,
            List.map_nil, List.flatten_append, List.flatten_cons, List.flatten_nil]
          rw [intRange_append (show s ≤ p + 1 by omega) (show p ≤ e by omega)]
        · simp only [List.append_nil, List.nil_append, List.cons_append,
            List.chain'_cons, List.chain'_singleton, and_true]
      · have hfe : a2 = e := by omega
        have hpe : p = e := by omega
        rw [hAcc.1 (by omega), hCon.1 (by omega), hFol.1 (by omega), hae, hpe]
        refine ⟨by simp, ?_, ?_, ?_⟩
        · intro ph hph
          simp only [List.append_nil, List.nil_append, List.mem_singleton] at hph
          rcases hph with rfl
          dsimp only
          omega
        · simp only [List.append_nil, List.nil_append, List.map_cons, List.map_nil,
            List.flatten_cons, List.flatten_nil]
        · simp only [List.append_nil, List.nil_append]
          exact List.chain'_singleton _

/-- C3 (counterexample): at this 4-frame clip (frames 0..3) with the
Peak-Velocity anchor at frame 2, the contact boundary
`min(⌊2 + 0.4 * (3 - 2)⌋, 3) = 2` collapses onto the anchor, so the
Contact phase's range is empty and the phase is dropped: only Preparation,
Acceleration and Follow-through are emitted — refuting the claim that all
four phases appear whenever the clip spans at least 4 frames. -/
theorem detectMovementPhases_four_refuted :
    fourFrames.length = 4 ∧ threeVelocityPoints ≠ [] ∧
    (detectMovementPhases fourFrames threeVelocityPoints [peakVelocityMomentTwo]).map
      MovementPhase.name = ["Preparation", "Acceleration", "Follow-through"] := by
  decide!

/-- C3 (witness): on 10 consecutive frames 0..9 with a Peak-Velocity anchor
at frame 7, the emitted phases are non-empty, ordered, contiguous and
partition the range 0..9. -/
theorem detectMovementPhases_partition_witness :
    detectMovementPhases tenFrames nineVelocityPoints [peakVelocityMomentSeven] ≠ [] ∧
    (∀ ph ∈ detectMovementPhases tenFrames nineVelocityPoints [peakVelocityMomentSeven],
      ph.startFrame ≤ ph.endFrame) ∧
    ((detectMovementPhases tenFrames nineVelocityPoints [peakVelocityMomentSeven]).map
      (fun ph => intRange ph.startFrame ph.endFrame)).flatten = intRange 0 9 ∧
    List.Chain' (fun ph qh => ph.endFrame + 1 = qh.startFrame)
      (detectMovementPhases tenFrames nineVelocityPoints [peakVelocityMomentSeven]) :=
  detectMovementPhases_partition tenFrames nineVelocityPoints [peakVelocityMomentSeven] 0 9
    (by decide!) (by decide!) (by decide!) (by decide!) (by decide!)

end SportMove
